import Mathlib

/-!
# Verification of the unprice entitlement / usage-metering core

Shallow embedding of the entitlement service (`src/internal/services/src/
metrics/noop.ts`, class `EntitlementService`) and the grant resolver
(`src/unnamed/part_002`, class `GrantsManager`), together with proofs of the
specification claims about them.

Modelling conventions:
* JS `number` values used for usage counters, limits and drift are modelled
  as `ℚ` (the code only adds, subtracts, compares and takes absolute values;
  the decimal-string serialisation of `MeterState` counters is modelled by
  the rational value itself).
* Epoch-millisecond timestamps and priorities are modelled as `Int`.
* Nullable / optional fields are `Option`; JS `x ?? d` is `Option.getD`,
  JS `x || d` on strings is an explicit empty-string test.
* Fallible calls return `Except`; injected I/O results (analytics, storage)
  are explicit parameters of the embedded functions.
* JS `Array.prototype.sort` with comparator `(a, b) => b.priority - a.priority`
  is a stable descending sort by priority; it is modelled by the stable
  insertion sort `sortDescBy` below.
-/

namespace Unprice

/-- Feature types (`featureType ∈ {flat, tier, package, usage}`). -/
inductive FeatureType
| flat
| tier
| package
| usage
deriving DecidableEq, Repr, Inhabited

/-- Usage modes (`usageMode ∈ {tier, unit, package}`). -/
inductive UsageMode
| tier
| unit
| package
deriving DecidableEq, Repr, Inhabited

/-- Aggregation methods (`aggregationMethod` of a feature plan version). -/
inductive AggregationMethod
| none
| sum
| count
| max
| lastDuringPeriod
| sumAll
| countAll
| maxAll
deriving DecidableEq, Repr, Inhabited

/-- Aggregation behaviors used by the meter and the reconciler. -/
inductive AggBehavior
| none
| sum
| max
| last
deriving DecidableEq, Repr, Inhabited

/-- Aggregation scopes (`period` resets each cycle, `lifetime` never). -/
inductive AggScope
| period
| lifetime
deriving DecidableEq, Repr, Inhabited

/-- Overage strategies (`overageStrategy ∈ {none, last-call, always}`). -/
inductive OverageStrategy
| none
| lastCall
| always
deriving DecidableEq, Repr, Inhabited

/-- Entitlement merging policies (`mergingPolicy ∈ {sum, max, min, replace}`). -/
inductive MergingPolicy
| sum
| max
| min
| replace
deriving DecidableEq, Repr, Inhabited

/-- Per-aggregation-method configuration `(behavior, scope, reset)`. -/
structure AggConfig where
  behavior : AggBehavior
  scope : AggScope
  reset : Bool
deriving DecidableEq, Repr, Inhabited

/-- Modelled from the spec: `AGGREGATION_CONFIG` (§4.A) lives in
`@unprice/db/utils`, which is not under `src/`; the compile-time table is
transcribed from the spec's §4.A table. -/
def AGGREGATION_CONFIG : AggregationMethod → AggConfig
| .none => ⟨.none, .period, true⟩
| .sum => ⟨.sum, .period, true⟩
| .count => ⟨.sum, .period, true⟩
| .max => ⟨.max, .period, true⟩
| .lastDuringPeriod => ⟨.last, .period, true⟩
| .sumAll => ⟨.sum, .lifetime, false⟩
| .countAll => ⟨.sum, .lifetime, false⟩
| .maxAll => ⟨.max, .lifetime, false⟩

/-- One price tier of a pricing config (`config.tiers`): unit price plus an
optional upper bound on the units billable in this tier. -/
structure PriceTier where
  unitPrice : ℚ
  upTo : Option ℚ
deriving DecidableEq, Repr, Inhabited

/-- Pricing configuration carried by a feature plan version / grant snapshot
(`config`: usage mode plus tiers). -/
structure PriceConfig where
  usageMode : Option UsageMode
  tiers : List PriceTier
deriving DecidableEq, Repr, Inhabited

/-- A grant snapshot as stored on an entitlement
(`entitlementGrantsSnapshotSchema`:
`{id, type, name, effectiveAt, expiresAt, limit, priority, config}`). -/
structure GrantSnapshot where
  id : String
  gtype : String
  name : String
  effectiveAt : Int
  expiresAt : Option Int
  limit : Option ℚ
  priority : Int
  config : Option PriceConfig
deriving DecidableEq, Repr, Inhabited

/-! ## Stable descending sort by priority

`[...xs].sort((a, b) => b.priority - a.priority)` in the source is a stable
sort placing higher priorities first. `sortDescBy p` is a stable insertion
sort for an integer key `p`. -/

/-- Insert `x` in front of the first element whose key is not larger,
keeping `x` after earlier elements of strictly larger key and before later
elements of equal key (stability). -/
def insertDescBy (p : α → Int) (x : α) : List α → List α
| [] => [x]
| h :: t => if p h ≤ p x then x :: h :: t else h :: insertDescBy p x t

/-- Stable insertion sort, descending in the key `p`. -/
def sortDescBy (p : α → Int) : List α → List α
| [] => []
| x :: xs => insertDescBy p x (sortDescBy p xs)

theorem insertDescBy_perm (p : α → Int) (x : α) (l : List α) :
    (insertDescBy p x l).Perm (x :: l) := by
  induction l with
  | nil => simp [insertDescBy]
  | cons h t ih =>
    by_cases hc : p h ≤ p x
    · simp [insertDescBy, hc]
    · simp only [insertDescBy, if_neg hc]
      exact (List.Perm.cons h ih).trans (List.Perm.swap x h t)

theorem sortDescBy_perm (p : α → Int) (l : List α) : (sortDescBy p l).Perm l := by
  induction l with
  | nil => simp [sortDescBy]
  | cons x xs ih =>
    exact (insertDescBy_perm p x (sortDescBy p xs)).trans (ih.cons x)

theorem mem_sortDescBy (p : α → Int) (l : List α) (a : α) :
    a ∈ sortDescBy p l ↔ a ∈ l :=
  (sortDescBy_perm p l).mem_iff

theorem sortDescBy_ne_nil (p : α → Int) (l : List α) (hl : l ≠ []) :
    sortDescBy p l ≠ [] := by
  intro hnil
  have hlen := (sortDescBy_perm p l).length_eq
  rw [hnil] at hlen
  exact hl (List.length_eq_zero.mp hlen.symm)

theorem insertDescBy_pairwise (p : α → Int) (x : α) (l : List α)
    (hl : l.Pairwise (fun a b => p b ≤ p a)) :
    (insertDescBy p x l).Pairwise (fun a b => p b ≤ p a) := by
  induction l with
  | nil => simp [insertDescBy]
  | cons h t ih =>
    rcases List.pairwise_cons.mp hl with ⟨hh, ht⟩
    by_cases hc : p h ≤ p x
    · simp only [insertDescBy, if_pos hc]
      refine List.pairwise_cons.mpr ⟨?_, hl⟩
      intro b hb
      rcases List.mem_cons.mp hb with hb2 | hb2
      · subst hb2; exact hc
      · exact le_trans (hh b hb2) hc
    · simp only [insertDescBy, if_neg hc]
      refine List.pairwise_cons.mpr ⟨?_, ih ht⟩
      intro b hb
      rcases List.mem_cons.mp (((insertDescBy_perm p x t).mem_iff).mp hb) with hb2 | hb2
      · subst hb2
        exact le_of_lt (lt_of_not_le hc)
      · exact hh b hb2

theorem sortDescBy_pairwise (p : α → Int) (l : List α) :
    (sortDescBy p l).Pairwise (fun a b => p b ≤ p a) := by
  induction l with
  | nil => simp [sortDescBy]
  | cons x xs ih => exact insertDescBy_pairwise p x (sortDescBy p xs) ih

/-! ## GrantsManager.mergeGrants (src/unnamed/part_002, lines 751-908) -/

/-- Result of `GrantsManager.mergeGrants`. -/
structure MergedGrants where
  limit : Option ℚ
  grants : List GrantSnapshot
  effectiveAt : Int
  expiresAt : Option Int
  mergingPolicy : MergingPolicy
deriving DecidableEq, Repr, Inhabited

/-- Policy resolution inside `mergeGrants`: explicit policy wins, otherwise
the policy is derived from the feature type (and the usage mode for `usage`
features); with neither, fall back to `replace`. -/
def resolvePolicy (featureType : Option FeatureType) (usageMode : Option UsageMode)
    (explicitPolicy : Option MergingPolicy) : MergingPolicy :=
  match explicitPolicy with
  | some p => p
  | none =>
    match featureType with
    | none => .replace
    | some .usage => if usageMode = some .tier then .max else .sum
    | some .tier => .max
    | some .package => .max
    | some .flat => .replace

/-- `sorted.reduce((sum, g) => sum + (g.limit ?? 0), 0)` of the sum branch. -/
def limitFoldSum (l : List GrantSnapshot) : ℚ :=
  l.foldl (fun s g => s + g.limit.getD 0) 0

/-- `Math.max(...sorted.map((g) => g.expiresAt ?? Number.NEGATIVE_INFINITY))`
followed by the `−∞ → null` mapping of the sum branch: the maximum of the
set `expiresAt` values, `none` when no grant has one. -/
def expiresFoldMax (l : List GrantSnapshot) : Option Int :=
  l.foldl
    (fun acc g =>
      match g.expiresAt, acc with
      | Option.none, a => a
      | some e, Option.none => some e
      | some e, some a => some (max a e))
    none

/-- `Math.max(...limits)` over the non-null limits of the sorted grants:
`limits.length > 0 ? Math.max(...limits) : null`. -/
def maxLimitOf (sorted : List GrantSnapshot) : Option ℚ :=
  (sorted.filterMap (·.limit)).max?

/-- `Math.min(...limits)` over the non-null limits of the sorted grants. -/
def minLimitOf (sorted : List GrantSnapshot) : Option ℚ :=
  (sorted.filterMap (·.limit)).min?

/-- `sorted.find((g) => g.limit === target) || sorted[0]!`: the first grant
(in descending priority order) whose limit equals the target. -/
def findWinner (sorted : List GrantSnapshot) (target : Option ℚ) : GrantSnapshot :=
  (sorted.find? (fun g => decide (g.limit = target))).getD sorted.headI

/-- `GrantsManager.mergeGrants`: merges grant snapshots according to the
resolved merging policy (src/unnamed/part_002, lines 751-908). -/
def mergeGrants (grants : List GrantSnapshot) (featureType : Option FeatureType)
    (usageMode : Option UsageMode) (explicitPolicy : Option MergingPolicy) :
    MergedGrants :=
  match grants with
  | [] =>
    { limit := none, grants := [], effectiveAt := 0, expiresAt := none
      mergingPolicy := .replace }
  | _ :: _ =>
    let sorted := sortDescBy (·.priority) grants
    match resolvePolicy featureType usageMode explicitPolicy with
    | .sum =>
      let limit := limitFoldSum sorted
      let minStart := ((sorted.map (·.effectiveAt)).min?).getD 0
      let maxEnd := expiresFoldMax sorted
      { limit := if limit > 0 then some limit else none
        grants := sorted
        effectiveAt := minStart
        expiresAt := maxEnd
        mergingPolicy := .sum }
    | .max =>
      let maxLimit := maxLimitOf sorted
      let winningGrant := findWinner sorted maxLimit
      { limit := maxLimit
        grants := [winningGrant]
        effectiveAt := winningGrant.effectiveAt
        expiresAt := winningGrant.expiresAt
        mergingPolicy := .max }
    | .min =>
      let minLimit := minLimitOf sorted
      let winningGrant := findWinner sorted minLimit
      { limit := minLimit
        grants := [winningGrant]
        effectiveAt := winningGrant.effectiveAt
        expiresAt := winningGrant.expiresAt
        mergingPolicy := .min }
    | .replace =>
      let highest := sorted.headI
      { limit := highest.limit
        grants := [highest]
        effectiveAt := highest.effectiveAt
        expiresAt := highest.expiresAt
        mergingPolicy := .replace }

/-- A `find?` hit in a `Pairwise R` list is related by `R` to every other
element satisfying the predicate. -/
theorem find?_pairwise_rel {R : α → α → Prop} (q : α → Bool) (m : List α)
    (w : α) (hpair : m.Pairwise R) (hfind : m.find? q = some w) :
    ∀ a ∈ m, q a = true → a = w ∨ R w a := by
  induction m with
  | nil => intro a ha; cases ha
  | cons h t ih =>
    rcases List.pairwise_cons.mp hpair with ⟨hh, ht⟩
    intro a ha hqa
    by_cases hqh : q h = true
    · rw [List.find?_cons_of_pos _ hqh] at hfind
      cases hfind
      rcases List.mem_cons.mp ha with ha2 | ha2
      · exact Or.inl ha2
      · exact Or.inr (hh a ha2)
    · rw [List.find?_cons_of_neg _ (by simpa using hqh)] at hfind
      rcases List.mem_cons.mp ha with ha2 | ha2
      · subst ha2; exact absurd hqa hqh
      · exact ih ht hfind a ha2 hqa

/-- In a list sorted by descending key, a `find?` hit has the largest key
among all elements satisfying the predicate. -/
theorem find?_sortDescBy_max_key (p : α → Int) (q : α → Bool) (l : List α)
    (w : α) (hfind : (sortDescBy p l).find? q = some w) :
    ∀ a ∈ l, q a = true → p a ≤ p w := by
  intro a ha hqa
  have ha2 : a ∈ sortDescBy p l := (mem_sortDescBy p l a).mpr ha
  rcases find?_pairwise_rel q (sortDescBy p l) w (sortDescBy_pairwise p l)
      hfind a ha2 hqa with hEq | hRel
  · subst hEq; exact le_refl _
  · exact hRel

/-! ## Helper lemmas for the merge theorems -/

instance : Std.Antisymm ((· : Int) ≤ ·) := ⟨fun h₁ h₂ => le_antisymm h₁ h₂⟩

instance : Std.Antisymm ((· : ℚ) ≤ ·) := ⟨fun h₁ h₂ => le_antisymm h₁ h₂⟩

/-- The JS `reduce` of the sum branch computes the sum of `limit ?? 0`. -/
theorem limitFoldSum_eq_sum (l : List GrantSnapshot) :
    limitFoldSum l = (l.map (fun g => g.limit.getD 0)).sum := by
  suffices h : ∀ (a : ℚ) (l : List GrantSnapshot),
      l.foldl (fun s g => s + g.limit.getD 0) a = a + (l.map (fun g => g.limit.getD 0)).sum by
    simpa [limitFoldSum] using h 0 l
  intro a l
  induction l generalizing a with
  | nil => simp
  | cons g t ih => simp [ih, add_assoc]

/-- Generalised-accumulator version of the `expiresFoldMax` step. -/
def expiresStep (acc : Option Int) (g : GrantSnapshot) : Option Int :=
  match g.expiresAt, acc with
  | Option.none, a => a
  | some e, Option.none => some e
  | some e, some a => some (max a e)

theorem expiresFoldMax_eq_foldl (l : List GrantSnapshot) :
    expiresFoldMax l = l.foldl expiresStep none := rfl

theorem expiresFold_none_iff (l : List GrantSnapshot) :
    ∀ acc : Option Int,
      l.foldl expiresStep acc = none ↔ (acc = none ∧ ∀ g ∈ l, g.expiresAt = none) := by
  induction l with
  | nil => intro acc; simp
  | cons g t ih =>
    intro acc
    rw [List.foldl_cons, ih (expiresStep acc g)]
    cases hg : g.expiresAt with
    | none =>
      cases acc with
      | none => simp [expiresStep, hg]
      | some a => simp [expiresStep, hg]
    | some e =>
      cases acc with
      | none => simp [expiresStep, hg]
      | some a => simp [expiresStep, hg]

theorem expiresFold_some (l : List GrantSnapshot) :
    ∀ (acc : Option Int) (M : Int), l.foldl expiresStep acc = some M →
      (acc = some M ∨ ∃ g ∈ l, g.expiresAt = some M)
      ∧ (∀ a, acc = some a → a ≤ M)
      ∧ (∀ g ∈ l, ∀ e, g.expiresAt = some e → e ≤ M) := by
  induction l with
  | nil =>
    intro acc M h
    simp only [List.foldl_nil] at h
    refine ⟨Or.inl h, fun a ha => ?_, by simp⟩
    rw [h] at ha
    cases ha
    exact le_refl _
  | cons g t ih =>
    intro acc M h
    rw [List.foldl_cons] at h
    rcases ih (expiresStep acc g) M h with ⟨hatt, hacc, ht⟩
    have hstep : ∀ a, acc = some a → ∃ b, expiresStep acc g = some b ∧ a ≤ b := by
      intro a ha
      cases hg : g.expiresAt with
      | none => exact ⟨a, by simp [expiresStep, hg, ha], le_refl a⟩
      | some e => exact ⟨max a e, by simp [expiresStep, hg, ha], le_max_left a e⟩
    have hgbound : ∀ e, g.expiresAt = some e → e ≤ M := by
      intro e hg
      have hse : ∃ b, expiresStep acc g = some b ∧ e ≤ b := by
        cases acc with
        | none => exact ⟨e, by simp [expiresStep, hg], le_refl e⟩
        | some a => exact ⟨max a e, by simp [expiresStep, hg], le_max_right a e⟩
      rcases hse with ⟨b, hb, heb⟩
      exact le_trans heb (hacc b hb)
    refine ⟨?_, ?_, ?_⟩
    · rcases hatt with hatt | ⟨g2, hg2, he2⟩
      · cases hg : g.expiresAt with
        | none =>
          cases acc with
          | none => simp [expiresStep, hg] at hatt
          | some a =>
            simp only [expiresStep, hg] at hatt
            exact Or.inl hatt
        | some e =>
          cases acc with
          | none =>
            simp only [expiresStep, hg, Option.some.injEq] at hatt
            exact Or.inr ⟨g, List.mem_cons_self g t, by rw [hg, hatt]⟩
          | some a =>
            simp only [expiresStep, hg, Option.some.injEq] at hatt
            rcases max_choice a e with hm | hm
            · exact Or.inl (by rw [hm] at hatt; rw [hatt])
            · rw [hm] at hatt
              exact Or.inr ⟨g, List.mem_cons_self g t, by rw [hg, hatt]⟩
      · exact Or.inr ⟨g2, List.mem_cons_of_mem g hg2, he2⟩
    · intro a ha
      rcases hstep a ha with ⟨b, hb, hab⟩
      exact le_trans hab (hacc b hb)
    · intro g2 hg2 e he
      rcases List.mem_cons.mp hg2 with hg2 | hg2
      · subst hg2; exact hgbound e he
      · exact ht g2 hg2 e he

/-- Branch reduction: `mergeGrants` on a non-empty list under a policy that
resolves to `sum`. -/
theorem mergeGrants_sum_eq (x : GrantSnapshot) (xs : List GrantSnapshot)
    (ft : Option FeatureType) (um : Option UsageMode) (pol : Option MergingPolicy)
    (hpol : resolvePolicy ft um pol = .sum) :
    mergeGrants (x :: xs) ft um pol =
      { limit :=
          if limitFoldSum (sortDescBy (·.priority) (x :: xs)) > 0
          then some (limitFoldSum (sortDescBy (·.priority) (x :: xs)))
          else none
        grants := sortDescBy (·.priority) (x :: xs)
        effectiveAt := (((sortDescBy (·.priority) (x :: xs)).map (·.effectiveAt)).min?).getD 0
        expiresAt := expiresFoldMax (sortDescBy (·.priority) (x :: xs))
        mergingPolicy := .sum } := by
  simp only [mergeGrants]
  rw [hpol]

/-- Branch reduction: `mergeGrants` on a non-empty list under a policy that
resolves to `max`. -/
theorem mergeGrants_max_eq (x : GrantSnapshot) (xs : List GrantSnapshot)
    (ft : Option FeatureType) (um : Option UsageMode) (pol : Option MergingPolicy)
    (hpol : resolvePolicy ft um pol = .max) :
    mergeGrants (x :: xs) ft um pol =
      { limit := maxLimitOf (sortDescBy (·.priority) (x :: xs))
        grants := [findWinner (sortDescBy (·.priority) (x :: xs))
          (maxLimitOf (sortDescBy (·.priority) (x :: xs)))]
        effectiveAt := (findWinner (sortDescBy (·.priority) (x :: xs))
          (maxLimitOf (sortDescBy (·.priority) (x :: xs)))).effectiveAt
        expiresAt := (findWinner (sortDescBy (·.priority) (x :: xs))
          (maxLimitOf (sortDescBy (·.priority) (x :: xs)))).expiresAt
        mergingPolicy := .max } := by
  simp only [mergeGrants]
  rw [hpol]

/-- Sum over all grants of `limit ?? 0`. -/
def limitSumOf (gs : List GrantSnapshot) : ℚ :=
  (gs.map (fun g => g.limit.getD 0)).sum

theorem limitFoldSum_sortDescBy (gs : List GrantSnapshot) :
    limitFoldSum (sortDescBy (·.priority) gs) = limitSumOf gs := by
  rw [limitFoldSum_eq_sum, limitSumOf]
  exact List.Perm.sum_eq ((sortDescBy_perm (·.priority) gs).map _)

/-- **C4** (amended). For every non-empty grant list merged under policy
`sum`, `mergeGrants` returns: `limit` equal to the sum over all grants of
`limit ?? 0` **when that sum is positive, and `null` otherwise** (the code
maps a non-positive sum to `null`); `effectiveAt` equal to the minimum
`effectiveAt` over the grants; `expiresAt` equal to the maximum `expiresAt`
over the grants, or `null` when no grant has `expiresAt` set; and a grants
snapshot containing all input grants sorted by descending priority. -/
theorem C4_mergeGrants_sum_amended (gs : List GrantSnapshot) (ft : Option FeatureType)
    (um : Option UsageMode) (pol : Option MergingPolicy)
    (hne : gs ≠ []) (hpol : resolvePolicy ft um pol = .sum) :
    (mergeGrants gs ft um pol).mergingPolicy = .sum
    ∧ (mergeGrants gs ft um pol).limit =
        (if limitSumOf gs > 0 then some (limitSumOf gs) else none)
    ∧ (∃ g ∈ gs, (mergeGrants gs ft um pol).effectiveAt = g.effectiveAt)
    ∧ (∀ g ∈ gs, (mergeGrants gs ft um pol).effectiveAt ≤ g.effectiveAt)
    ∧ ((mergeGrants gs ft um pol).expiresAt = none ↔ ∀ g ∈ gs, g.expiresAt = none)
    ∧ (∀ M, (mergeGrants gs ft um pol).expiresAt = some M →
        (∃ g ∈ gs, g.expiresAt = some M) ∧ ∀ g ∈ gs, ∀ e, g.expiresAt = some e → e ≤ M)
    ∧ (mergeGrants gs ft um pol).grants.Perm gs
    ∧ (mergeGrants gs ft um pol).grants.Pairwise (fun a b => b.priority ≤ a.priority) := by
  cases gs with
  | nil => exact absurd rfl hne
  | cons x xs =>
    rw [mergeGrants_sum_eq x xs ft um pol hpol]
    have hperm := sortDescBy_perm (fun g : GrantSnapshot => g.priority) (x :: xs)
    have hsne : sortDescBy (fun g : GrantSnapshot => g.priority) (x :: xs) ≠ [] :=
      sortDescBy_ne_nil _ _ (by simp)
    obtain ⟨y, ys, hys⟩ :
        ∃ y ys, sortDescBy (fun g : GrantSnapshot => g.priority) (x :: xs) = y :: ys := by
      cases hs : sortDescBy (fun g : GrantSnapshot => g.priority) (x :: xs) with
      | nil => exact absurd hs hsne
      | cons y ys => exact ⟨y, ys, rfl⟩
    have hmin : ∃ m,
        ((sortDescBy (fun g : GrantSnapshot => g.priority) (x :: xs)).map
          (·.effectiveAt)).min? = some m := by
      rw [hys]
      exact ⟨_, rfl⟩
    obtain ⟨m, hm⟩ := hmin
    have hm2 := (List.min?_eq_some_iff Int.le_refl (fun a b => min_choice a b)
      (fun _ _ _ => le_min_iff)).mp hm
    refine ⟨rfl, ?_, ?_, ?_, ?_, ?_, ?_, ?_⟩
    · show (if limitFoldSum _ > 0 then some (limitFoldSum _) else none) = _
      rw [limitFoldSum_sortDescBy]
    · show ∃ g ∈ x :: xs, (_ : Option Int).getD 0 = g.effectiveAt
      rcases List.mem_map.mp hm2.1 with ⟨g, hg, hge⟩
      exact ⟨g, hperm.mem_iff.mp hg, by rw [hm]; simpa using hge.symm⟩
    · intro g hg
      show (_ : Option Int).getD 0 ≤ g.effectiveAt
      rw [hm]
      exact hm2.2 g.effectiveAt
        (List.mem_map.mpr ⟨g, hperm.mem_iff.mpr hg, rfl⟩)
    · show expiresFoldMax _ = none ↔ _
      rw [expiresFoldMax_eq_foldl, expiresFold_none_iff]
      constructor
      · intro h g hg
        exact h.2 g (hperm.mem_iff.mpr hg)
      · intro h
        exact ⟨rfl, fun g hg => h g (hperm.mem_iff.mp hg)⟩
    · intro M hM
      have hM2 : (sortDescBy (fun g : GrantSnapshot => g.priority) (x :: xs)).foldl
          expiresStep none = some M := by
        rw [← expiresFoldMax_eq_foldl]
        exact hM
      rcases expiresFold_some _ none M hM2 with ⟨hatt, _, hbound⟩
      constructor
      · rcases hatt with hatt | ⟨g, hg, he⟩
        · cases hatt
        · exact ⟨g, hperm.mem_iff.mp hg, he⟩
      · intro g hg e he
        exact hbound g (hperm.mem_iff.mpr hg) e he
    · exact hperm
    · exact sortDescBy_pairwise _ _

/-- A single grant whose `limit` is `null`; the sum-policy merge of `[it]`
returns `limit = null` while the claim as stated demands
`limit = Σ (limit ?? 0) = 0`. -/
def c4NullLimitGrant : GrantSnapshot :=
  { id := "g-null", gtype := "manual", name := "N", effectiveAt := 0,
    expiresAt := none, limit := none, priority := 80, config := none }

/-- **C4** counterexample: for the one-element grant list whose grant has a
`null` limit, the claim as stated says the merged `limit` equals the sum
`Σ (limit ?? 0) = 0`, but `mergeGrants` returns `null` (the code returns
`limit > 0 ? limit : null`). -/
theorem C4_counterexample :
    (mergeGrants [c4NullLimitGrant] none none (some .sum)).limit
      ≠ some (limitSumOf [c4NullLimitGrant]) := by
  simp [mergeGrants, c4NullLimitGrant, sortDescBy, insertDescBy, limitFoldSum,
    limitSumOf, expiresFoldMax, resolvePolicy]

/-- Grant A of spec scenario 6: `{priority: 10, limit: 1000}`. -/
def c4GrantA : GrantSnapshot :=
  { id := "grant-a", gtype := "subscription", name := "A", effectiveAt := 100,
    expiresAt := none, limit := some 1000, priority := 10, config := none }

/-- Grant B of spec scenario 6: `{priority: 70, limit: 500}`. -/
def c4GrantB : GrantSnapshot :=
  { id := "grant-b", gtype := "promotion", name := "B", effectiveAt := 200,
    expiresAt := some 900, limit := some 500, priority := 70, config := none }

theorem C4_witness :
    ([c4GrantA, c4GrantB] ≠ ([] : List GrantSnapshot))
    ∧ resolvePolicy (some .usage) (some .unit) none = .sum
    ∧ ((mergeGrants [c4GrantA, c4GrantB] (some .usage) (some .unit) none).mergingPolicy = .sum
      ∧ (mergeGrants [c4GrantA, c4GrantB] (some .usage) (some .unit) none).limit =
          (if limitSumOf [c4GrantA, c4GrantB] > 0 then some (limitSumOf [c4GrantA, c4GrantB])
           else none)
      ∧ (∃ g ∈ [c4GrantA, c4GrantB],
          (mergeGrants [c4GrantA, c4GrantB] (some .usage) (some .unit) none).effectiveAt =
            g.effectiveAt)
      ∧ (∀ g ∈ [c4GrantA, c4GrantB],
          (mergeGrants [c4GrantA, c4GrantB] (some .usage) (some .unit) none).effectiveAt ≤
            g.effectiveAt)
      ∧ ((mergeGrants [c4GrantA, c4GrantB] (some .usage) (some .unit) none).expiresAt = none ↔
          ∀ g ∈ [c4GrantA, c4GrantB], g.expiresAt = none)
      ∧ (∀ M, (mergeGrants [c4GrantA, c4GrantB] (some .usage) (some .unit) none).expiresAt =
            some M →
          (∃ g ∈ [c4GrantA, c4GrantB], g.expiresAt = some M)
          ∧ ∀ g ∈ [c4GrantA, c4GrantB], ∀ e, g.expiresAt = some e → e ≤ M)
      ∧ (mergeGrants [c4GrantA, c4GrantB] (some .usage) (some .unit) none).grants.Perm
          [c4GrantA, c4GrantB]
      ∧ (mergeGrants [c4GrantA, c4GrantB] (some .usage) (some .unit) none).grants.Pairwise
          (fun a b => b.priority ≤ a.priority)) :=
  ⟨by decide, by decide,
    C4_mergeGrants_sum_amended [c4GrantA, c4GrantB] (some .usage) (some .unit) none
      (by decide) (by decide)⟩

/-- **C5.** For every non-empty grant list merged under policy `max` in which
at least one grant has a non-null limit, `mergeGrants` keeps exactly one
grant: the highest-priority grant whose limit equals the maximum non-null
limit among the grants; the returned `limit` is that maximum, and
`effectiveAt` and `expiresAt` are taken from that single winning grant. -/
theorem C5_mergeGrants_max (gs : List GrantSnapshot) (ft : Option FeatureType)
    (um : Option UsageMode) (pol : Option MergingPolicy)
    (hne : gs ≠ []) (hpol : resolvePolicy ft um pol = .max)
    (hsome : ∃ g ∈ gs, g.limit ≠ none) :
    ∃ w m, (mergeGrants gs ft um pol).grants = [w] ∧ w ∈ gs ∧ w.limit = some m
      ∧ (mergeGrants gs ft um pol).limit = some m
      ∧ (mergeGrants gs ft um pol).effectiveAt = w.effectiveAt
      ∧ (mergeGrants gs ft um pol).expiresAt = w.expiresAt
      ∧ (∀ g ∈ gs, ∀ lg, g.limit = some lg → lg ≤ m)
      ∧ (∀ g ∈ gs, g.limit = some m → g.priority ≤ w.priority) := by
  cases gs with
  | nil => exact absurd rfl hne
  | cons x xs =>
    rw [mergeGrants_max_eq x xs ft um pol hpol]
    have hperm := sortDescBy_perm (fun g : GrantSnapshot => g.priority) (x :: xs)
    obtain ⟨g0, hg0mem, hg0⟩ := hsome
    obtain ⟨v0, hv0⟩ : ∃ v, g0.limit = some v := by
      cases hl : g0.limit with
      | none => exact absurd hl hg0
      | some v => exact ⟨v, rfl⟩
    have hv0mem : v0 ∈ (sortDescBy (fun g : GrantSnapshot => g.priority) (x :: xs)).filterMap
        (·.limit) :=
      List.mem_filterMap.mpr ⟨g0, hperm.mem_iff.mpr hg0mem, hv0⟩
    obtain ⟨m, hm⟩ : ∃ m, maxLimitOf (sortDescBy (fun g : GrantSnapshot => g.priority) (x :: xs))
        = some m := by
      rw [maxLimitOf]
      cases hl : (sortDescBy (fun g : GrantSnapshot => g.priority) (x :: xs)).filterMap
          (·.limit) with
      | nil => rw [hl] at hv0mem; cases hv0mem
      | cons a as => exact ⟨_, rfl⟩
    have hm2 := (List.max?_eq_some_iff (fun a : ℚ => le_refl a)
      (fun a b => max_choice a b) (fun _ _ _ => max_le_iff)).mp hm
    obtain ⟨w, hw⟩ : ∃ w,
        (sortDescBy (fun g : GrantSnapshot => g.priority) (x :: xs)).find?
          (fun g => decide (g.limit = maxLimitOf
            (sortDescBy (fun g : GrantSnapshot => g.priority) (x :: xs)))) = some w := by
      rcases List.mem_filterMap.mp hm2.1 with ⟨gm, hgmmem, hgml⟩
      have : ∃ g, g ∈ sortDescBy (fun g : GrantSnapshot => g.priority) (x :: xs)
          ∧ decide (g.limit = maxLimitOf
            (sortDescBy (fun g : GrantSnapshot => g.priority) (x :: xs))) = true :=
        ⟨gm, hgmmem, by rw [hm, hgml]; exact decide_eq_true rfl⟩
      rcases this with ⟨g, hgm, hq⟩
      cases hfs : (sortDescBy (fun g : GrantSnapshot => g.priority) (x :: xs)).find?
          (fun g => decide (g.limit = maxLimitOf
            (sortDescBy (fun g : GrantSnapshot => g.priority) (x :: xs)))) with
      | none =>
        exfalso
        have := List.find?_eq_none.mp hfs g hgm
        rw [hq] at this
        exact this rfl
      | some w => exact ⟨w, rfl⟩
    have hwin : findWinner (sortDescBy (fun g : GrantSnapshot => g.priority) (x :: xs))
        (maxLimitOf (sortDescBy (fun g : GrantSnapshot => g.priority) (x :: xs))) = w := by
      rw [findWinner, hw]
      rfl
    have hwmem : w ∈ x :: xs := hperm.mem_iff.mp (List.mem_of_find?_eq_some hw)
    have hwq := List.find?_some hw
    have hwl : w.limit = some m := by
      rw [hm] at hwq
      exact of_decide_eq_true hwq
    refine ⟨w, m, by rw [hwin], hwmem, hwl, by rw [hm], by rw [hwin], by rw [hwin], ?_, ?_⟩
    · intro g hg lg hlg
      exact hm2.2 lg (List.mem_filterMap.mpr ⟨g, hperm.mem_iff.mpr hg, hlg⟩)
    · intro g hg hgm
      have hq : decide (g.limit = maxLimitOf
          (sortDescBy (fun g : GrantSnapshot => g.priority) (x :: xs))) = true := by
        rw [hm, hgm]
        exact decide_eq_true rfl
      exact find?_sortDescBy_max_key (fun g : GrantSnapshot => g.priority) _ (x :: xs) w hw
        g hg hq

/-- Grant A of spec scenario 7: `{limit: 10}`. -/
def c5GrantA : GrantSnapshot :=
  { id := "grant-a7", gtype := "subscription", name := "A", effectiveAt := 10,
    expiresAt := none, limit := some 10, priority := 10, config := none }

/-- Grant B of spec scenario 7: `{limit: 50}`. -/
def c5GrantB : GrantSnapshot :=
  { id := "grant-b7", gtype := "addon", name := "B", effectiveAt := 20,
    expiresAt := some 800, limit := some 50, priority := 20, config := none }

/-! ## Data model: metadata, configs, grants, entitlement state -/

/-- Feature-plan-version metadata
(`{overageStrategy, notifyUsageThreshold, blockCustomer, hidden, realtime}`,
all optional). -/
structure Metadata where
  overageStrategy : Option OverageStrategy
  notifyUsageThreshold : Option ℚ
  blockCustomer : Option Bool
  hidden : Option Bool
  realtime : Option Bool
deriving DecidableEq, Repr, Inhabited

/-- Reset configuration of an entitlement
(`{name, resetInterval, resetIntervalCount, planType, resetAnchor}`). -/
structure ResetConfig where
  name : String
  resetInterval : String
  resetIntervalCount : Int
  planType : String
  resetAnchor : Int
deriving DecidableEq, Repr, Inhabited

/-- Billing configuration of a feature plan version
(`{name, billingInterval, billingIntervalCount, planType}`). -/
structure BillingConfig where
  name : String
  billingInterval : String
  billingIntervalCount : Int
  planType : String
deriving DecidableEq, Repr, Inhabited

/-- The feature-plan-version configuration referenced by a grant. The nested
`feature.slug` is flattened into `featureSlug`. -/
structure FeaturePlanVersion where
  featureSlug : String
  featureType : FeatureType
  aggregationMethod : AggregationMethod
  config : PriceConfig
  metadata : Option Metadata
  resetConfig : Option ResetConfig
  billingConfig : Option BillingConfig
deriving DecidableEq, Repr, Inhabited

/-- A full grant row with its embedded feature plan version
(`grantSchemaExtended`). -/
structure GrantExt where
  id : String
  gtype : String
  name : String
  priority : Int
  limit : Option ℚ
  anchor : Int
  effectiveAt : Int
  expiresAt : Option Int
  featurePlanVersion : FeaturePlanVersion
deriving DecidableEq, Repr, Inhabited

/-- Per-entitlement runtime counter (`MeterState`). The decimal-string
counters `usage` and `snapshotUsage` are modelled by their rational value. -/
structure MeterState where
  usage : ℚ
  snapshotUsage : ℚ
  lastReconciledId : String
  lastUpdated : Int
  lastCycleStart : Option Int
deriving DecidableEq, Repr, Inhabited

/-- A fresh meter used by concrete states. -/
def zeroMeter : MeterState :=
  { usage := 0, snapshotUsage := 0, lastReconciledId := "", lastUpdated := 0,
    lastCycleStart := none }

/-- The live `EntitlementState` (entitlement plus meter) held by the actor. -/
structure EntitlementState where
  customerId : String
  projectId : String
  featureSlug : String
  featureType : FeatureType
  aggregationMethod : AggregationMethod
  limit : Option ℚ
  mergingPolicy : MergingPolicy
  grants : List GrantSnapshot
  version : String
  effectiveAt : Int
  expiresAt : Option Int
  nextRevalidateAt : Int
  resetConfig : Option ResetConfig
  metadata : Option Metadata
  meter : MeterState
deriving DecidableEq, Repr, Inhabited

/-! ## GrantsManager.computeEntitlementState (src/unnamed/part_002, 501-641)

The impure bookkeeping fields of the computed entitlement (the SHA-256
`version` hash via `hashStringSHA256` and the `Date.now()`-based
`nextRevalidateAt` / `computedAt` / `updatedAt` timestamps) are outside the
model; every other computed field is embedded. -/

/-- Errors of `computeEntitlementState`. -/
inductive GrantError
| noGrants
| featureMismatch
deriving DecidableEq, Repr, Inhabited

/-- The computed entitlement produced by `computeEntitlementState`. -/
structure ComputedEntitlement where
  limit : Option ℚ
  mergingPolicy : MergingPolicy
  effectiveAt : Int
  expiresAt : Option Int
  resetConfig : Option ResetConfig
  featureType : FeatureType
  aggregationMethod : AggregationMethod
  grants : List GrantSnapshot
  featureSlug : String
  customerId : String
  projectId : String
  metadata : Metadata
deriving DecidableEq, Repr, Inhabited

/-- The grant-snapshot projection used by `computeEntitlementState`
(`{id, type, name, effectiveAt, expiresAt, limit, priority, config}`). -/
def toSnapshot (g : GrantExt) : GrantSnapshot :=
  { id := g.id, gtype := g.gtype, name := g.name, effectiveAt := g.effectiveAt,
    expiresAt := g.expiresAt, limit := g.limit, priority := g.priority,
    config := some g.featurePlanVersion.config }

/-- `[...grants].sort((a, b) => (b.priority ?? 0) - (a.priority ?? 0))`
(priority is non-nullable in the schema, so the `?? 0` guards are vacuous). -/
def orderedGrantsOf (gs : List GrantExt) : List GrantExt :=
  sortDescBy (·.priority) gs

/-- `ordered[0]!`: the best-priority grant. -/
def bestPriorityGrantOf (gs : List GrantExt) : GrantExt :=
  (orderedGrantsOf gs).headI

/-- `ordered.map((g) => ({...}))`: the snapshot list in priority order. -/
def grantsSnapshotOf (gs : List GrantExt) : List GrantSnapshot :=
  (orderedGrantsOf gs).map toSnapshot

/-- The `mergeGrants` call of `computeEntitlementState` (feature type and
usage mode from the best-priority grant, no explicit policy). -/
def mergedOf (gs : List GrantExt) : MergedGrants :=
  mergeGrants (grantsSnapshotOf gs)
    (some (bestPriorityGrantOf gs).featurePlanVersion.featureType)
    (bestPriorityGrantOf gs).featurePlanVersion.config.usageMode
    none

/-- `merged.grants[0] ?? grantsSnapshot[0]!`. -/
def winningSnapshotOf (gs : List GrantExt) : GrantSnapshot :=
  match (mergedOf gs).grants with
  | [] => (grantsSnapshotOf gs).headI
  | w :: _ => w

/-- `grants.find((g) => g.id === winningGrantSnapshot.id) ?? bestPriorityGrant`. -/
def winningGrantOf (gs : List GrantExt) : GrantExt :=
  (gs.find? (fun g => decide (g.id = (winningSnapshotOf gs).id))).getD
    (bestPriorityGrantOf gs)

/-- Shorthand for a grant's optional overage strategy. -/
def grantStrategy (g : GrantExt) : Option OverageStrategy :=
  g.featurePlanVersion.metadata.bind (·.overageStrategy)

/-- The overage-strategy merge of `computeEntitlementState`
(src/unnamed/part_002, lines 553-573). -/
def mergedOverageStrategyOf (gs : List GrantExt) : OverageStrategy :=
  let s0 := (grantStrategy (winningGrantOf gs)).getD .none
  match (mergedOf gs).mergingPolicy with
  | .sum =>
    if gs.any (fun g => decide (grantStrategy g = some .always)) then .always
    else if gs.any (fun g => decide (grantStrategy g = some .lastCall)) then .lastCall
    else s0
  | .max =>
    if gs.any (fun g => decide (grantStrategy g = some .always)) then .always
    else if gs.any (fun g => decide (grantStrategy g = some .lastCall)) then .lastCall
    else s0
  | .min =>
    if gs.any (fun g => decide (grantStrategy g = some .none)) then .none
    else if gs.any (fun g => decide (grantStrategy g = some .lastCall)) then .lastCall
    else .always
  | .replace => s0

/-- The successful branch of `computeEntitlementState`: the computed
entitlement record built from the merged grants and the winning grant. -/
def computedOk (customerId projectId : String) (gs : List GrantExt) : ComputedEntitlement :=
  let merged := mergedOf gs
  let winner := winningGrantOf gs
  let winMeta := winner.featurePlanVersion.metadata
  let metadata : Metadata :=
    { overageStrategy := some (mergedOverageStrategyOf gs)
      realtime := some ((winMeta.bind (·.realtime)).getD false)
      notifyUsageThreshold := some ((winMeta.bind (·.notifyUsageThreshold)).getD 90)
      blockCustomer := some ((winMeta.bind (·.blockCustomer)).getD false)
      hidden := some ((winMeta.bind (·.hidden)).getD false) }
  let resetConfig := winner.featurePlanVersion.resetConfig.map
    (fun rc => { rc with resetAnchor := winner.anchor })
  let billingConfig := winner.featurePlanVersion.billingConfig.map
    (fun bc =>
      ({ name := bc.name, resetInterval := bc.billingInterval,
         resetIntervalCount := bc.billingIntervalCount, planType := bc.planType,
         resetAnchor := winner.anchor } : ResetConfig))
  let localResetConfig := resetConfig.orElse (fun _ => billingConfig)
  let config := AGGREGATION_CONFIG (bestPriorityGrantOf gs).featurePlanVersion.aggregationMethod
  { limit := merged.limit
    mergingPolicy := merged.mergingPolicy
    effectiveAt := if config.reset then merged.effectiveAt else winner.effectiveAt
    expiresAt := if config.reset then merged.expiresAt else winner.expiresAt
    resetConfig := if config.reset then localResetConfig else none
    featureType := (bestPriorityGrantOf gs).featurePlanVersion.featureType
    aggregationMethod := (bestPriorityGrantOf gs).featurePlanVersion.aggregationMethod
    grants := merged.grants
    featureSlug := gs.headI.featurePlanVersion.featureSlug
    customerId := customerId
    projectId := projectId
    metadata := metadata }

/-- `GrantsManager.computeEntitlementState`: computes the entitlement from a
grant list without saving it. -/
def computeEntitlementState (customerId projectId : String) (gs : List GrantExt) :
    Except GrantError ComputedEntitlement :=
  if gs.isEmpty then .error .noGrants
  else
    if gs.all (fun g => decide (g.featurePlanVersion.featureSlug =
        gs.headI.featurePlanVersion.featureSlug)) then
      .ok (computedOk customerId projectId gs)
    else .error .featureMismatch

theorem computeEntitlementState_ok (customerId projectId : String) (gs : List GrantExt)
    (hne : gs ≠ [])
    (hsame : gs.all (fun g => decide (g.featurePlanVersion.featureSlug =
      gs.headI.featurePlanVersion.featureSlug)) = true) :
    computeEntitlementState customerId projectId gs =
      .ok (computedOk customerId projectId gs) := by
  have hc1 : ¬ (gs.isEmpty = true) := by
    cases gs with
    | nil => exact absurd rfl hne
    | cons a b => simp
  simp only [computeEntitlementState]
  rw [if_neg hc1, if_pos hsame]

/-- **C6.** When computing an entitlement from grants, the merged overage
strategy is: for merging policy `sum` or `max`, `always` if any contributing
grant has strategy `always`, else `last-call` if any has `last-call`, else
the winning grant's strategy (defaulting to `none` when it has none set);
for policy `min`, `none` if any grant has `none`, else `last-call` if any
has `last-call`, else `always`; for policy `replace`, the winning grant's
strategy. -/
theorem C6_overage_strategy (customerId projectId : String) (gs : List GrantExt)
    (hne : gs ≠ [])
    (hsame : gs.all (fun g => decide (g.featurePlanVersion.featureSlug =
      gs.headI.featurePlanVersion.featureSlug)) = true) :
    ∃ ce, computeEntitlementState customerId projectId gs = .ok ce
      ∧ ce.mergingPolicy = (mergedOf gs).mergingPolicy
      ∧ ce.metadata.overageStrategy = some (
          match (mergedOf gs).mergingPolicy with
          | .sum =>
            if gs.any (fun g => decide (grantStrategy g = some .always)) then .always
            else if gs.any (fun g => decide (grantStrategy g = some .lastCall)) then .lastCall
            else (grantStrategy (winningGrantOf gs)).getD .none
          | .max =>
            if gs.any (fun g => decide (grantStrategy g = some .always)) then .always
            else if gs.any (fun g => decide (grantStrategy g = some .lastCall)) then .lastCall
            else (grantStrategy (winningGrantOf gs)).getD .none
          | .min =>
            if gs.any (fun g => decide (grantStrategy g = some .none)) then .none
            else if gs.any (fun g => decide (grantStrategy g = some .lastCall)) then .lastCall
            else .always
          | .replace => (grantStrategy (winningGrantOf gs)).getD .none) := by
  refine ⟨computedOk customerId projectId gs,
    computeEntitlementState_ok customerId projectId gs hne hsame, rfl, ?_⟩
  show some (mergedOverageStrategyOf gs) = _
  have hstrat : mergedOverageStrategyOf gs =
      (match (mergedOf gs).mergingPolicy with
      | .sum =>
        if gs.any (fun g => decide (grantStrategy g = some .always)) then .always
        else if gs.any (fun g => decide (grantStrategy g = some .lastCall)) then .lastCall
        else (grantStrategy (winningGrantOf gs)).getD .none
      | .max =>
        if gs.any (fun g => decide (grantStrategy g = some .always)) then .always
        else if gs.any (fun g => decide (grantStrategy g = some .lastCall)) then .lastCall
        else (grantStrategy (winningGrantOf gs)).getD .none
      | .min =>
        if gs.any (fun g => decide (grantStrategy g = some .none)) then .none
        else if gs.any (fun g => decide (grantStrategy g = some .lastCall)) then .lastCall
        else .always
      | .replace => (grantStrategy (winningGrantOf gs)).getD .none) := by
    cases hpol : (mergedOf gs).mergingPolicy <;>
      simp only [mergedOverageStrategyOf, hpol]
  rw [hstrat]

/-! ## EntitlementService.validateEntitlementState (noop.ts, 1656-1724) -/

/-- Errors of `validateEntitlementState`. -/
inductive ValidateError
| notStarted
| expired
| noActiveGrant
deriving DecidableEq, Repr, Inhabited

/-- `EntitlementService.isGrantActive` (noop.ts, lines 1656-1664):
`now >= grant.effectiveAt && now < (grant.expiresAt ?? +∞)`. -/
def isGrantActive (g : GrantSnapshot) (now : Int) : Bool :=
  decide (now ≥ g.effectiveAt) &&
    (match g.expiresAt with
     | none => true
     | some e => decide (now < e))

/-- The not-yet-started guard `state.effectiveAt && now < state.effectiveAt`
(JS truthiness: a zero `effectiveAt` disables the check). -/
def notStartedCheck (state : EntitlementState) (now : Int) : Bool :=
  state.effectiveAt != 0 && decide (now < state.effectiveAt)

/-- The expiry guard `state.expiresAt && now > state.expiresAt`
(JS truthiness: a missing or zero `expiresAt` disables the check). -/
def expiredCheck (state : EntitlementState) (now : Int) : Bool :=
  match state.expiresAt with
  | some e => e != 0 && decide (now > e)
  | none => false

/-- The grants still active at `now`, sorted by descending priority. -/
def activeGrantsOf (state : EntitlementState) (now : Int) : List GrantSnapshot :=
  sortDescBy (·.priority) (state.grants.filter (fun g => isGrantActive g now))

/-- The re-merge of the active grants under the state's merging policy. -/
def validatedMerged (state : EntitlementState) (now : Int) : MergedGrants :=
  mergeGrants (activeGrantsOf state now) (some state.featureType) none
    (some state.mergingPolicy)

/-- `EntitlementService.validateEntitlementState` (noop.ts, 1674-1724). -/
def validateEntitlementState (state : EntitlementState) (now : Int) :
    Except ValidateError EntitlementState :=
  if notStartedCheck state now then .error .notStarted
  else if expiredCheck state now then .error .expired
  else if (activeGrantsOf state now).isEmpty then .error .noActiveGrant
  else
    .ok { state with
      effectiveAt := (validatedMerged state now).effectiveAt
      expiresAt := (validatedMerged state now).expiresAt
      grants := (validatedMerged state now).grants }

theorem notStartedCheck_iff (state : EntitlementState) (now : Int) :
    notStartedCheck state now = true ↔
      state.effectiveAt ≠ 0 ∧ now < state.effectiveAt := by
  simp [notStartedCheck]

theorem expiredCheck_iff (state : EntitlementState) (now : Int) :
    expiredCheck state now = true ↔
      ∃ e, state.expiresAt = some e ∧ e ≠ 0 ∧ now > e := by
  cases he : state.expiresAt with
  | none => simp [expiredCheck, he]
  | some e => simp [expiredCheck, he]

theorem activeGrants_empty_iff (state : EntitlementState) (now : Int) :
    (activeGrantsOf state now).isEmpty = true ↔
      ∀ g ∈ state.grants, isGrantActive g now = false := by
  rw [List.isEmpty_iff, activeGrantsOf]
  constructor
  · intro h g hg
    by_contra hact
    have hmem : g ∈ state.grants.filter (fun g => isGrantActive g now) :=
      List.mem_filter.mpr ⟨hg, by simpa using hact⟩
    rw [← mem_sortDescBy (fun g : GrantSnapshot => g.priority)] at hmem
    rw [h] at hmem
    cases hmem
  · intro h
    have hfil : state.grants.filter (fun g => isGrantActive g now) = [] :=
      List.filter_eq_nil_iff.mpr (fun g hg => by simp [h g hg])
    rw [hfil]
    rfl

/-! ## EntitlementService.reconcileFeatureUsage (noop.ts, lines 760-1002)

The background reconciliation is embedded as a pure function of the entry
state, the request timestamp, and an environment carrying the results of its
impure collaborators: the cycle-window calculator (`calculateCycleWindow`
lives in `@unprice/db/validators`, not under `src/`, so the reconciler is
parameterized over it as a pure function, per its spec §4.B contract), the
wall clock read `Date.now()`, the watermark ULID `ulid(watermark)`, the
analytics cursor response and the storage refetch. -/

/-- A half-open cycle window `[start, stop)`. -/
structure CycleWindow where
  start : Int
  stop : Int
deriving DecidableEq, Repr, Inhabited

/-- Result of `analytics.getFeaturesUsageCursor`. -/
structure AnalyticsCursorResult where
  usage : Option ℚ
  lastRecordId : String
deriving DecidableEq, Repr, Inhabited

/-- Environment of one reconciliation run. `cycleWindow` takes the effective
start date, the effective end date, the `now` input and the reset config. -/
structure ReconcileEnv where
  cycleWindow : Int → Option Int → Int → ResetConfig → Option CycleWindow
  nowWall : Int
  beforeRecordId : String
  analytics : Except String AnalyticsCursorResult
  storageState : Except String (Option EntitlementState)

/-- The structured log emitted by the run (debug skips, the WARN skip, the
ERROR aborts, or a successful persist). -/
inductive ReconcileLog
| skipFlatDebug
| skipNonSumDebug
| skipCycleChangedDebug
| skipAlreadyReconciledDebug
| skipTooFreshDebug
| skipEmptyCursorWarn
| storageErrorLog
| analyticsErrorLog
| stateNotFoundErrorLog
| driftTooLargeErrorLog
| persisted
deriving DecidableEq, Repr, Inhabited

/-- Outcome of a reconciliation run: the log line and the state written back
by `storage.set`, if any. -/
structure ReconcileResult where
  log : ReconcileLog
  persist : Option EntitlementState
deriving Repr

/-- `MAX_DRIFT = 1000`. -/
def MAX_DRIFT : ℚ := 1000

/-- `EPSILON = 0.001`. -/
def EPSILON : ℚ := 1 / 1000

/-- `watermark = subMinutes(new Date(now), 5).getTime()`. -/
def watermarkOf (now : Int) : Int := now - 5 * 60000

/-- The cycle window at the watermark (`null` without a reset config). -/
def watermarkWindowOf (state : EntitlementState) (env : ReconcileEnv) (now : Int) :
    Option CycleWindow :=
  state.resetConfig.bind
    (fun rc => env.cycleWindow state.effectiveAt state.expiresAt (watermarkOf now) rc)

/-- The cycle window at `Date.now()` (`null` without a reset config). -/
def currentWindowOf (state : EntitlementState) (env : ReconcileEnv) :
    Option CycleWindow :=
  state.resetConfig.bind
    (fun rc => env.cycleWindow state.effectiveAt state.expiresAt env.nowWall rc)

/-- The cycle-boundary guard: both windows computed and with distinct starts. -/
def cycleChangedCheck (state : EntitlementState) (env : ReconcileEnv) (now : Int) : Bool :=
  match watermarkWindowOf state env now, currentWindowOf state env with
  | some w, some c => w.start != c.start
  | _, _ => false

/-- `effectiveAt = watermarkCycleWindow?.start ?? snapshot.effectiveAt`. -/
def effectiveAtR (state : EntitlementState) (env : ReconcileEnv) (now : Int) : Int :=
  ((watermarkWindowOf state env now).map (·.start)).getD state.effectiveAt

/-- `EntitlementService.reconcileFeatureUsage` (noop.ts, lines 760-1002). -/
def reconcileFeatureUsage (state : EntitlementState) (now : Int) (env : ReconcileEnv) :
    ReconcileResult :=
  if state.featureType = .flat then ⟨.skipFlatDebug, none⟩
  else if (AGGREGATION_CONFIG state.aggregationMethod).behavior ≠ .sum then
    ⟨.skipNonSumDebug, none⟩
  else if cycleChangedCheck state env now then ⟨.skipCycleChangedDebug, none⟩
  else if ¬ (state.meter.lastReconciledId < env.beforeRecordId) then
    ⟨.skipAlreadyReconciledDebug, none⟩
  else if watermarkOf now < effectiveAtR state env now then ⟨.skipTooFreshDebug, none⟩
  else if state.meter.lastReconciledId = "" then ⟨.skipEmptyCursorWarn, none⟩
  else
    match env.storageState with
    | .error _ => ⟨.storageErrorLog, none⟩
    | .ok entRes =>
      match env.analytics with
      | .error _ => ⟨.analyticsErrorLog, none⟩
      | .ok a =>
        match entRes with
        | none => ⟨.stateNotFoundErrorLog, none⟩
        | some entitlementState =>
          let snapshotCurrentUsage := state.meter.usage
          let snapshotLastReconciledUsage := state.meter.snapshotUsage
          let analyticsUsage := a.usage.getD 0
          let analyticsLastRecordId :=
            if a.lastRecordId = "" then env.beforeRecordId else a.lastRecordId
          if (AGGREGATION_CONFIG state.aggregationMethod).behavior = .sum then
            let drift := analyticsUsage - snapshotLastReconciledUsage
            if |drift| > MAX_DRIFT then ⟨.driftTooLargeErrorLog, none⟩
            else
              let meter1 :=
                if |drift| > EPSILON then
                  { state.meter with usage := snapshotCurrentUsage + drift }
                else state.meter
              ⟨.persisted, some { entitlementState with meter :=
                { meter1 with
                    usage := snapshotCurrentUsage
                    lastReconciledId := analyticsLastRecordId } }⟩
          else
            ⟨.persisted, some { entitlementState with meter := state.meter }⟩

/-- **C1.** For every background reconciliation of a sum-behavior, non-flat
entitlement that passes all skip checks, if the absolute drift between the
analytics usage over the cursor range and the meter's snapshot usage at last
reconciliation exceeds `MAX_DRIFT` (1000 units), then the reconciler emits
the `DRIFT_TOO_LARGE` error log and returns without persisting anything, so
`usage`, `snapshotUsage` and `lastReconciledId` are all unchanged. -/
theorem C1_reconcile_drift_too_large (state : EntitlementState) (now : Int)
    (env : ReconcileEnv) (st : EntitlementState) (a : AnalyticsCursorResult)
    (h1 : state.featureType ≠ .flat)
    (h2 : (AGGREGATION_CONFIG state.aggregationMethod).behavior = .sum)
    (h3 : cycleChangedCheck state env now = false)
    (h4 : state.meter.lastReconciledId < env.beforeRecordId)
    (h5 : ¬ (watermarkOf now < effectiveAtR state env now))
    (h6 : state.meter.lastReconciledId ≠ "")
    (h7 : env.storageState = .ok (some st))
    (h8 : env.analytics = .ok a)
    (h9 : |a.usage.getD 0 - state.meter.snapshotUsage| > MAX_DRIFT) :
    reconcileFeatureUsage state now env = ⟨.driftTooLargeErrorLog, none⟩ := by
  rw [reconcileFeatureUsage]
  rw [if_neg h1, if_neg (by simp [h2]), if_neg (by simp [h3]),
    if_neg (not_not_intro h4), if_neg h5, if_neg h6, h7, h8]
  simp only []
  rw [if_pos h2, if_pos h9]

/-- **C2.** For every reconciliation of a sum-behavior entitlement that
passes all skip checks and has absolute drift at most `MAX_DRIFT`, the
persisted meter ends with `usage` equal to the counter value read at the
start of reconciliation (the intermediate `meter.usage += drift` never
survives) and with `lastReconciledId` equal to the analytics `lastRecordId`,
falling back to the watermark ULID when analytics returns no record id
(treating the empty string as absent). -/
theorem C2_reconcile_persists_snapshot_usage (state : EntitlementState) (now : Int)
    (env : ReconcileEnv) (st : EntitlementState) (a : AnalyticsCursorResult)
    (h1 : state.featureType ≠ .flat)
    (h2 : (AGGREGATION_CONFIG state.aggregationMethod).behavior = .sum)
    (h3 : cycleChangedCheck state env now = false)
    (h4 : state.meter.lastReconciledId < env.beforeRecordId)
    (h5 : ¬ (watermarkOf now < effectiveAtR state env now))
    (h6 : state.meter.lastReconciledId ≠ "")
    (h7 : env.storageState = .ok (some st))
    (h8 : env.analytics = .ok a)
    (h9 : |a.usage.getD 0 - state.meter.snapshotUsage| ≤ MAX_DRIFT) :
    ∃ p, reconcileFeatureUsage state now env = ⟨.persisted, some p⟩
      ∧ p.meter.usage = state.meter.usage
      ∧ p.meter.lastReconciledId =
          (if a.lastRecordId = "" then env.beforeRecordId else a.lastRecordId) := by
  rw [reconcileFeatureUsage]
  rw [if_neg h1, if_neg (by simp [h2]), if_neg (by simp [h3]),
    if_neg (not_not_intro h4), if_neg h5, if_neg h6, h7, h8]
  simp only []
  rw [if_pos h2, if_neg (not_lt.mpr h9)]
  exact ⟨_, rfl, rfl, rfl⟩

/-- **C10** (implicit). For every reconciliation that reaches the persist
step, the meter persisted is derived from the meter taken from the
caller-provided state at entry (the snapshot's shallow spread shares that
meter reference) with its `usage` overwritten by the value read at entry;
the meter carried by the entitlement state refetched from storage during
reconciliation is discarded — substituting any other meter into the
refetched state leaves the reconciliation result unchanged — so usage
written to storage between the start of reconciliation and its persist is
not reflected in the persisted meter. -/
theorem C10_reconcile_ignores_refetched_meter (state : EntitlementState) (now : Int)
    (env : ReconcileEnv) (st : EntitlementState) (a : AnalyticsCursorResult)
    (h1 : state.featureType ≠ .flat)
    (h2 : (AGGREGATION_CONFIG state.aggregationMethod).behavior = .sum)
    (h3 : cycleChangedCheck state env now = false)
    (h4 : state.meter.lastReconciledId < env.beforeRecordId)
    (h5 : ¬ (watermarkOf now < effectiveAtR state env now))
    (h6 : state.meter.lastReconciledId ≠ "")
    (h7 : env.storageState = .ok (some st))
    (h8 : env.analytics = .ok a)
    (h9 : |a.usage.getD 0 - state.meter.snapshotUsage| ≤ MAX_DRIFT) :
    (∀ m2 : MeterState,
      reconcileFeatureUsage state now
          { env with storageState := .ok (some { st with meter := m2 }) }
        = reconcileFeatureUsage state now env)
    ∧ ∃ p, reconcileFeatureUsage state now env = ⟨.persisted, some p⟩
        ∧ p = { st with meter := p.meter }
        ∧ p.meter.usage = state.meter.usage
        ∧ p.meter.snapshotUsage = state.meter.snapshotUsage
        ∧ p.meter.lastReconciledId =
            (if a.lastRecordId = "" then env.beforeRecordId else a.lastRecordId) := by
  have hred : ∀ st2 : EntitlementState, ∀ env2 : ReconcileEnv,
      env2.cycleWindow = env.cycleWindow → env2.nowWall = env.nowWall →
      env2.beforeRecordId = env.beforeRecordId → env2.analytics = env.analytics →
      env2.storageState = .ok (some st2) →
      reconcileFeatureUsage state now env2 = ⟨.persisted, some { st2 with meter :=
        { (if |a.usage.getD 0 - state.meter.snapshotUsage| > EPSILON then
            { state.meter with usage := state.meter.usage +
              (a.usage.getD 0 - state.meter.snapshotUsage) }
          else state.meter) with
            usage := state.meter.usage
            lastReconciledId :=
              (if a.lastRecordId = "" then env.beforeRecordId else a.lastRecordId) } }⟩ := by
    intro st2 env2 hcw hnw hbr han hss
    have h3b : cycleChangedCheck state env2 now = false := by
      rw [cycleChangedCheck, watermarkWindowOf, currentWindowOf, hcw, hnw]
      rw [cycleChangedCheck, watermarkWindowOf, currentWindowOf] at h3
      exact h3
    have h5b : ¬ (watermarkOf now < effectiveAtR state env2 now) := by
      rw [effectiveAtR, watermarkWindowOf, hcw]
      rw [effectiveAtR, watermarkWindowOf] at h5
      exact h5
    rw [reconcileFeatureUsage]
    rw [if_neg h1, if_neg (by simp [h2]), if_neg (by simp [h3b]),
      if_neg (not_not_intro (hbr ▸ h4)), if_neg h5b, if_neg h6, hss, han, h8]
    simp only []
    rw [if_pos h2, if_neg (not_lt.mpr h9), hbr]
  constructor
  · intro m2
    rw [hred st env rfl rfl rfl rfl h7,
      hred { st with meter := m2 } { env with storageState := .ok (some { st with meter := m2 }) }
        rfl rfl rfl rfl rfl]
  · refine ⟨_, hred st env rfl rfl rfl rfl h7, rfl, rfl, ?_, rfl⟩
    by_cases hd : |a.usage.getD 0 - state.meter.snapshotUsage| > EPSILON
    · simp [if_pos hd]
    · simp [if_neg hd]

/-- Concrete meter for the reconciliation witnesses: initialised cursor
`"A"`, snapshot usage `0`, live usage `5`. -/
def reconMeter : MeterState :=
  { usage := 5, snapshotUsage := 0, lastReconciledId := "A", lastUpdated := 0,
    lastCycleStart := none }

/-- Concrete sum-behavior entitlement state without a reset config. -/
def reconState : EntitlementState :=
  { customerId := "rc", projectId := "rp", featureSlug := "rf",
    featureType := .usage, aggregationMethod := .sum, limit := none,
    mergingPolicy := .sum, grants := [], version := "rv", effectiveAt := 0,
    expiresAt := none, nextRevalidateAt := 0, resetConfig := none,
    metadata := none, meter := reconMeter }

/-- Analytics response with a drift of 2000 over the snapshot usage 0. -/
def reconAnalyticsBig : AnalyticsCursorResult := { usage := some 2000, lastRecordId := "X" }

/-- Analytics response with a drift of 500 and no record id. -/
def reconAnalyticsSmall : AnalyticsCursorResult := { usage := some 500, lastRecordId := "" }

/-- Environment whose analytics drift exceeds `MAX_DRIFT`. -/
def reconEnvBig : ReconcileEnv :=
  { cycleWindow := fun _ _ _ _ => none, nowWall := 0, beforeRecordId := "B",
    analytics := .ok reconAnalyticsBig, storageState := .ok (some reconState) }

/-- Environment whose analytics drift is within `MAX_DRIFT`. -/
def reconEnvSmall : ReconcileEnv :=
  { cycleWindow := fun _ _ _ _ => none, nowWall := 0, beforeRecordId := "B",
    analytics := .ok reconAnalyticsSmall, storageState := .ok (some reconState) }

theorem C1_witness :
    (reconState.featureType ≠ .flat)
    ∧ ((AGGREGATION_CONFIG reconState.aggregationMethod).behavior = .sum)
    ∧ (cycleChangedCheck reconState reconEnvBig 1000000 = false)
    ∧ (reconState.meter.lastReconciledId < reconEnvBig.beforeRecordId)
    ∧ (¬ (watermarkOf 1000000 < effectiveAtR reconState reconEnvBig 1000000))
    ∧ (reconState.meter.lastReconciledId ≠ "")
    ∧ (reconEnvBig.storageState = .ok (some reconState))
    ∧ (reconEnvBig.analytics = .ok reconAnalyticsBig)
    ∧ (|reconAnalyticsBig.usage.getD 0 - reconState.meter.snapshotUsage| > MAX_DRIFT)
    ∧ reconcileFeatureUsage reconState 1000000 reconEnvBig = ⟨.driftTooLargeErrorLog, none⟩ :=
  ⟨by decide, by decide, by decide,
    by rw [String.lt_iff_toList_lt]; decide,
    by decide, by decide, rfl, rfl,
    by norm_num [reconAnalyticsBig, reconState, reconMeter, MAX_DRIFT],
    C1_reconcile_drift_too_large reconState 1000000 reconEnvBig reconState reconAnalyticsBig
      (by decide) (by decide) (by decide)
      (by rw [String.lt_iff_toList_lt]; decide)
      (by decide) (by decide) rfl rfl
      (by norm_num [reconAnalyticsBig, reconState, reconMeter, MAX_DRIFT])⟩

theorem C2_witness :
    (reconState.featureType ≠ .flat)
    ∧ ((AGGREGATION_CONFIG reconState.aggregationMethod).behavior = .sum)
    ∧ (cycleChangedCheck reconState reconEnvSmall 1000000 = false)
    ∧ (reconState.meter.lastReconciledId < reconEnvSmall.beforeRecordId)
    ∧ (¬ (watermarkOf 1000000 < effectiveAtR reconState reconEnvSmall 1000000))
    ∧ (reconState.meter.lastReconciledId ≠ "")
    ∧ (reconEnvSmall.storageState = .ok (some reconState))
    ∧ (reconEnvSmall.analytics = .ok reconAnalyticsSmall)
    ∧ (|reconAnalyticsSmall.usage.getD 0 - reconState.meter.snapshotUsage| ≤ MAX_DRIFT)
    ∧ (∃ p, reconcileFeatureUsage reconState 1000000 reconEnvSmall = ⟨.persisted, some p⟩
        ∧ p.meter.usage = reconState.meter.usage
        ∧ p.meter.lastReconciledId =
            (if reconAnalyticsSmall.lastRecordId = "" then reconEnvSmall.beforeRecordId
             else reconAnalyticsSmall.lastRecordId)) :=
  ⟨by decide, by decide, by decide,
    by rw [String.lt_iff_toList_lt]; decide,
    by decide, by decide, rfl, rfl,
    by norm_num [reconAnalyticsSmall, reconState, reconMeter, MAX_DRIFT],
    C2_reconcile_persists_snapshot_usage reconState 1000000 reconEnvSmall reconState
      reconAnalyticsSmall
      (by decide) (by decide) (by decide)
      (by rw [String.lt_iff_toList_lt]; decide)
      (by decide) (by decide) rfl rfl
      (by norm_num [reconAnalyticsSmall, reconState, reconMeter, MAX_DRIFT])⟩

theorem C10_witness :
    (reconState.featureType ≠ .flat)
    ∧ ((AGGREGATION_CONFIG reconState.aggregationMethod).behavior = .sum)
    ∧ (cycleChangedCheck reconState reconEnvSmall 1000000 = false)
    ∧ (reconState.meter.lastReconciledId < reconEnvSmall.beforeRecordId)
    ∧ (¬ (watermarkOf 1000000 < effectiveAtR reconState reconEnvSmall 1000000))
    ∧ (reconState.meter.lastReconciledId ≠ "")
    ∧ (reconEnvSmall.storageState = .ok (some reconState))
    ∧ (reconEnvSmall.analytics = .ok reconAnalyticsSmall)
    ∧ (|reconAnalyticsSmall.usage.getD 0 - reconState.meter.snapshotUsage| ≤ MAX_DRIFT)
    ∧ ((∀ m2 : MeterState,
        reconcileFeatureUsage reconState 1000000
            { reconEnvSmall with storageState := .ok (some { reconState with meter := m2 }) }
          = reconcileFeatureUsage reconState 1000000 reconEnvSmall)
      ∧ ∃ p, reconcileFeatureUsage reconState 1000000 reconEnvSmall = ⟨.persisted, some p⟩
          ∧ p = { reconState with meter := p.meter }
          ∧ p.meter.usage = reconState.meter.usage
          ∧ p.meter.snapshotUsage = reconState.meter.snapshotUsage
          ∧ p.meter.lastReconciledId =
              (if reconAnalyticsSmall.lastRecordId = "" then reconEnvSmall.beforeRecordId
               else reconAnalyticsSmall.lastRecordId)) :=
  ⟨by decide, by decide, by decide,
    by rw [String.lt_iff_toList_lt]; decide,
    by decide, by decide, rfl, rfl,
    by norm_num [reconAnalyticsSmall, reconState, reconMeter, MAX_DRIFT],
    C10_reconcile_ignores_refetched_meter reconState 1000000 reconEnvSmall reconState
      reconAnalyticsSmall
      (by decide) (by decide) (by decide)
      (by rw [String.lt_iff_toList_lt]; decide)
      (by decide) (by decide) rfl rfl
      (by norm_num [reconAnalyticsSmall, reconState, reconMeter, MAX_DRIFT])⟩

/-- **C7** (amended). `validateEntitlementState(state, now)` returns an
error if and only if `now < state.effectiveAt` **and `effectiveAt` is
nonzero**, or `state.expiresAt` is set **and nonzero** and
`now > state.expiresAt` (JS truthiness treats a zero timestamp as absent),
or no grant in `state.grants` is active at `now`; otherwise it returns the
state with `effectiveAt`, `expiresAt` and `grants` replaced by the result of
re-merging only the active grants under the state's merging policy. -/
theorem C7_validate_characterisation (state : EntitlementState) (now : Int) :
    ((validateEntitlementState state now).isOk = false ↔
      ((state.effectiveAt ≠ 0 ∧ now < state.effectiveAt)
        ∨ (∃ e, state.expiresAt = some e ∧ e ≠ 0 ∧ now > e)
        ∨ (∀ g ∈ state.grants, isGrantActive g now = false)))
    ∧ (∀ st2, validateEntitlementState state now = .ok st2 →
        st2 = { state with
          effectiveAt := (validatedMerged state now).effectiveAt
          expiresAt := (validatedMerged state now).expiresAt
          grants := (validatedMerged state now).grants }) := by
  by_cases h1 : notStartedCheck state now = true
  · constructor
    · rw [validateEntitlementState, if_pos h1]
      simp only [Except.isOk, Except.toBool]
      exact ⟨fun _ => Or.inl ((notStartedCheck_iff state now).mp h1), fun _ => trivial⟩
    · intro st2 h
      rw [validateEntitlementState, if_pos h1] at h
      cases h
  · by_cases h2 : expiredCheck state now = true
    · constructor
      · rw [validateEntitlementState, if_neg h1, if_pos h2]
        simp only [Except.isOk, Except.toBool]
        exact ⟨fun _ => Or.inr (Or.inl ((expiredCheck_iff state now).mp h2)),
          fun _ => trivial⟩
      · intro st2 h
        rw [validateEntitlementState, if_neg h1, if_pos h2] at h
        cases h
    · by_cases h3 : (activeGrantsOf state now).isEmpty = true
      · constructor
        · rw [validateEntitlementState, if_neg h1, if_neg h2, if_pos h3]
          simp only [Except.isOk, Except.toBool]
          exact ⟨fun _ => Or.inr (Or.inr ((activeGrants_empty_iff state now).mp h3)),
            fun _ => trivial⟩
        · intro st2 h
          rw [validateEntitlementState, if_neg h1, if_neg h2, if_pos h3] at h
          cases h
      · constructor
        · rw [validateEntitlementState, if_neg h1, if_neg h2, if_neg h3]
          simp only [Except.isOk, Except.toBool]
          constructor
          · intro h
            cases h
          · intro h
            exfalso
            rcases h with h | h | h
            · exact h1 ((notStartedCheck_iff state now).mpr h)
            · exact h2 ((expiredCheck_iff state now).mpr h)
            · exact h3 ((activeGrants_empty_iff state now).mpr h)
        · intro st2 h
          rw [validateEntitlementState, if_neg h1, if_neg h2, if_neg h3] at h
          cases h
          rfl

/-- An always-active grant used by the C7 state. -/
def c7Grant : GrantSnapshot :=
  { id := "g7", gtype := "manual", name := "G", effectiveAt := 0,
    expiresAt := none, limit := some 10, priority := 80, config := none }

/-- Concrete state with `expiresAt = 0`: set but treated as absent by the
JS truthiness check. -/
def c7State : EntitlementState :=
  { customerId := "c7c", projectId := "c7p", featureSlug := "feat7",
    featureType := .flat, aggregationMethod := .none, limit := some 1,
    mergingPolicy := .replace, grants := [c7Grant], version := "v7",
    effectiveAt := 0, expiresAt := some 0, nextRevalidateAt := 0,
    resetConfig := none, metadata := none, meter := zeroMeter }

/-- **C7** counterexample: at `now = 5` the state has `expiresAt` set
(`some 0`) with `now > 0`, so the claim as stated demands an error, but the
code's `state.expiresAt && now > state.expiresAt` guard treats the zero
timestamp as falsy and validation succeeds. -/
theorem C7_counterexample :
    c7State.expiresAt = some 0 ∧ ((5 : Int) > 0)
    ∧ (validateEntitlementState c7State 5).isOk = true := by
  refine ⟨rfl, by decide, ?_⟩
  decide

theorem C7_witness :
    ((validateEntitlementState c7State 5).isOk = false ↔
      ((c7State.effectiveAt ≠ 0 ∧ (5 : Int) < c7State.effectiveAt)
        ∨ (∃ e, c7State.expiresAt = some e ∧ e ≠ 0 ∧ (5 : Int) > e)
        ∨ (∀ g ∈ c7State.grants, isGrantActive g 5 = false)))
    ∧ (∀ st2, validateEntitlementState c7State 5 = .ok st2 →
        st2 = { c7State with
          effectiveAt := (validatedMerged c7State 5).effectiveAt
          expiresAt := (validatedMerged c7State 5).expiresAt
          grants := (validatedMerged c7State 5).grants }) :=
  C7_validate_characterisation c7State 5

/-! ## EntitlementService.getUsageMeter (noop.ts, lines 158-172) -/

/-- Configuration handed to the `UsageMeter` constructor. -/
structure UsageMeterConfig where
  capacity : Option ℚ
  aggregationMethod : AggregationMethod
  featureType : FeatureType
  resetConfig : Option ResetConfig
  startDate : Int
  threshold : ℚ
  endDate : Option Int
  overageStrategy : Option OverageStrategy
deriving DecidableEq, Repr, Inhabited

/-- `EntitlementService.getUsageMeter` configuration (noop.ts, lines
158-172). The `limit ?? Number.POSITIVE_INFINITY` capacity fallback is
modelled by `none` standing for the infinite default. -/
def getUsageMeterConfig (v : EntitlementState) : UsageMeterConfig :=
  { capacity := v.limit
    aggregationMethod := v.aggregationMethod
    featureType := v.featureType
    resetConfig := v.resetConfig
    startDate := v.effectiveAt
    threshold := ((v.metadata.bind (·.notifyUsageThreshold)).getD 95) / 100
    endDate := v.expiresAt
    overageStrategy := v.metadata.bind (·.overageStrategy) }

/-- The `{...entitlement, meter}` spread building an `EntitlementState` from
a computed entitlement, a version hash, a revalidation deadline and a meter. -/
def stateFromComputed (ce : ComputedEntitlement) (version : String)
    (nextRevalidateAt : Int) (meter : MeterState) : EntitlementState :=
  { customerId := ce.customerId, projectId := ce.projectId, featureSlug := ce.featureSlug,
    featureType := ce.featureType, aggregationMethod := ce.aggregationMethod,
    limit := ce.limit, mergingPolicy := ce.mergingPolicy, grants := ce.grants,
    version := version, effectiveAt := ce.effectiveAt, expiresAt := ce.expiresAt,
    nextRevalidateAt := nextRevalidateAt, resetConfig := ce.resetConfig,
    metadata := some ce.metadata, meter := meter }

/-- **C8** (amended). For every entitlement state whose metadata does not
specify `notifyUsageThreshold`, the usage-meter configuration built by the
service uses the over-threshold fraction `95 / 100`. (Entitlements computed
by the grant resolver always carry a `notifyUsageThreshold` — defaulted to
`90` when the winning grant has none — so they do not fall under this
default; see the counterexample.) -/
theorem C8_default_threshold (st : EntitlementState)
    (hmeta : st.metadata.bind (·.notifyUsageThreshold) = none) :
    (getUsageMeterConfig st).threshold = 95 / 100 := by
  simp [getUsageMeterConfig, hmeta]

/-- Concrete entitlement state with no metadata at all. -/
def c8StateNoMeta : EntitlementState :=
  { customerId := "c8c", projectId := "c8p", featureSlug := "seats",
    featureType := .usage, aggregationMethod := .sum, limit := some 100,
    mergingPolicy := .sum, grants := [], version := "v0", effectiveAt := 0,
    expiresAt := none, nextRevalidateAt := 0, resetConfig := none,
    metadata := none, meter := zeroMeter }

theorem C8_witness :
    (c8StateNoMeta.metadata.bind (·.notifyUsageThreshold) = none)
    ∧ (getUsageMeterConfig c8StateNoMeta).threshold = 95 / 100 :=
  ⟨rfl, C8_default_threshold c8StateNoMeta rfl⟩

/-- A grant whose feature plan version has no metadata (in particular no
`notifyUsageThreshold`). -/
def c8Grant : GrantExt :=
  { id := "c8g", gtype := "subscription", name := "G", priority := 10, limit := none,
    anchor := 0, effectiveAt := 0, expiresAt := none,
    featurePlanVersion :=
      { featureSlug := "seats", featureType := .usage, aggregationMethod := .sum,
        config := { usageMode := some .unit, tiers := [] },
        metadata := none, resetConfig := none, billingConfig := none } }

/-- **C8** counterexample: the grant resolver fills
`notifyUsageThreshold ?? 90` into the computed entitlement's metadata, so an
entitlement computed from a grant whose winning grant has no
`notifyUsageThreshold` reaches the meter with threshold `90 / 100`, not the
claimed `95 / 100`. -/
theorem C8_counterexample :
    ∃ ce, computeEntitlementState "c8cust" "c8proj" [c8Grant] = .ok ce
      ∧ c8Grant.featurePlanVersion.metadata.bind (·.notifyUsageThreshold) = none
      ∧ ce.metadata.notifyUsageThreshold = some 90
      ∧ (getUsageMeterConfig (stateFromComputed ce "v1" 0 zeroMeter)).threshold ≠ 95 / 100 := by
  refine ⟨computedOk "c8cust" "c8proj" [c8Grant],
    computeEntitlementState_ok "c8cust" "c8proj" [c8Grant] (by decide) (by decide),
    rfl, ?_, ?_⟩
  · rfl
  · have hth : (getUsageMeterConfig (stateFromComputed
        (computedOk "c8cust" "c8proj" [c8Grant]) "v1" 0 zeroMeter)).threshold =
        (90 : ℚ) / 100 := by
      have h90 : (computedOk "c8cust" "c8proj" [c8Grant]).metadata.notifyUsageThreshold =
          some 90 := rfl
      show (((some (computedOk "c8cust" "c8proj" [c8Grant]).metadata).bind
        (·.notifyUsageThreshold)).getD 95) / 100 = (90 : ℚ) / 100
      rw [Option.some_bind, h90]
      rfl
    rw [hth]
    norm_num

/-! ## UsageMeter, pricing and EntitlementService.reportUsage -/

/-- Deny reasons surfaced by the service. -/
inductive DeniedReason
| entitlementNotFound
| entitlementError
| limitExceeded
| featureDisabled
| notActive
| expired
| revoked
deriving DecidableEq, Repr, Inhabited

/-- Modelled from the spec: the `UsageMeter` class lives in
`./usage-meter`, which is not under `src/`; per §4.E it is constructed from
the meter configuration and the persisted `MeterState`. -/
structure UsageMeter where
  config : UsageMeterConfig
  state : MeterState
deriving DecidableEq, Repr, Inhabited

/-- Modelled from the spec: `toPersist() → MeterState` (§4.E) returns the
meter's state; restoring and persisting without consuming round-trips. -/
def UsageMeter.toPersist (m : UsageMeter) : MeterState := m.state

/-- Result of `UsageMeter.consume` / `UsageMeter.verify`; `remaining` is
`none` when the meter is unlimited. -/
structure ConsumeResult where
  allowed : Bool
  remaining : Option ℚ
  deniedReason : Option DeniedReason
  message : Option String
  overThreshold : Bool
deriving DecidableEq, Repr, Inhabited

/-- Modelled from the spec: `consume(delta, now)` (§4.E behavior rules and
overage policy; `./usage-meter` is not under `src/`). `sum` adds, `max`
takes the maximum, `last` replaces; on `newUsage > limit` the overage
strategy decides: `none` denies with `LIMIT_EXCEEDED` leaving the counter
unchanged, `last-call` allows the crossing transaction and denies once the
counter has reached the limit, `always` allows and reports `overThreshold`
when `usage / limit` reaches the threshold. A flat feature never consumes. -/
def UsageMeter.consume (m : UsageMeter) (delta : ℚ) (now : Int) :
    ConsumeResult × UsageMeter :=
  if m.config.featureType = .flat then
    ({ allowed := m.config.capacity.elim true (fun l => decide (l > 0)),
       remaining := none, deniedReason := none, message := none,
       overThreshold := false }, m)
  else
    let usage := m.state.usage
    let newUsage :=
      match (AGGREGATION_CONFIG m.config.aggregationMethod).behavior with
      | .sum => usage + delta
      | .max => max usage delta
      | .last => delta
      | .none => usage
    match m.config.capacity with
    | none =>
      ({ allowed := true, remaining := none, deniedReason := none, message := none,
         overThreshold := false },
       { m with state := { m.state with usage := newUsage, lastUpdated := now } })
    | some limit =>
      if newUsage > limit then
        match m.config.overageStrategy.getD .none with
        | .none =>
          ({ allowed := false, remaining := some (limit - usage),
             deniedReason := some .limitExceeded, message := some "Limit exceeded",
             overThreshold := false }, m)
        | .lastCall =>
          if usage < limit then
            ({ allowed := true, remaining := some (limit - newUsage),
               deniedReason := none, message := none, overThreshold := true },
             { m with state := { m.state with usage := newUsage, lastUpdated := now } })
          else
            ({ allowed := false, remaining := some (limit - usage),
               deniedReason := some .limitExceeded, message := some "Limit exceeded",
               overThreshold := false }, m)
        | .always =>
          ({ allowed := true, remaining := some (limit - newUsage),
             deniedReason := none, message := none,
             overThreshold := decide (limit ≠ 0 ∧ newUsage / limit ≥ m.config.threshold) },
           { m with state := { m.state with usage := newUsage, lastUpdated := now } })
      else
        ({ allowed := true, remaining := some (limit - newUsage), deniedReason := none,
           message := none,
           overThreshold := decide (limit ≠ 0 ∧ newUsage / limit ≥ m.config.threshold) },
         { m with state := { m.state with usage := newUsage, lastUpdated := now } })

/-- A grant as handed to the pricing waterfall
(`{id, limit, priority, config, prorate}`; the constant `prorate = 1` is
omitted). -/
structure PriceGrant where
  id : String
  limit : Option ℚ
  priority : Int
  config : PriceConfig
deriving DecidableEq, Repr, Inhabited

/-- Result of the pricing waterfall: total price and the tiers touched. -/
structure WaterfallResult where
  totalPrice : ℚ
  items : List PriceTier
deriving DecidableEq, Repr, Inhabited

/-- Modelled from the spec: one tier walk of the §4.D pricing waterfall —
consume units tier by tier at each tier's unit price. -/
def tierWalkCost : List PriceTier → ℚ → ℚ × List PriceTier
| [], _ => (0, [])
| t :: ts, u =>
  if u ≤ 0 then (0, [])
  else
    match t.upTo with
    | none => (u * t.unitPrice, [t])
    | some cap =>
      let here := min u cap
      let rest := tierWalkCost ts (u - cap)
      (here * t.unitPrice + rest.1, t :: rest.2)

/-- Modelled from the spec: `calculateWaterfallPrice`
(`@unprice/db/validators`, not under `src/`): §4.D — pricing is computed via
a waterfall across the winning (highest-priority) grant's `config.tiers`. -/
def calculateWaterfallPrice (grants : List PriceGrant) (usage : ℚ)
    (_featureType : FeatureType) : Except String WaterfallResult :=
  match sortDescBy (·.priority) grants with
  | [] => .error "NO_GRANTS"
  | w :: _ =>
    let walk := tierWalkCost w.config.tiers usage
    .ok { totalPrice := walk.1, items := walk.2 }

/-- `EntitlementService.roundToTwoDecimals` (noop.ts, lines 148-156):
`Math.round(value * 100) / 100`. On exact rationals the NaN / Infinity
guard of the source cannot fire. -/
def roundToTwoDecimals (v : ℚ) : ℚ := (round (v * 100) : ℤ) / 100

/-- Cost and marginal rate returned by `calculateCostAndRate`; the
display-string fields (`rate` text, currency code) are outside the model. -/
structure CostAndRate where
  cost : Option ℚ
  rateAmount : Option ℚ
deriving DecidableEq, Repr, Inhabited

/-- `EntitlementService.calculateCostAndRate` (noop.ts, lines 339-393):
empty for flat features; otherwise the waterfall price over the grants that
carry a pricing config, with the marginal rate taken from the last item. -/
def calculateCostAndRate (state : EntitlementState) (usage : ℚ) : CostAndRate :=
  if state.featureType = .flat then { cost := none, rateAmount := none }
  else
    match calculateWaterfallPrice
        (state.grants.filterMap (fun g => g.config.map (fun c =>
          ({ id := g.id, limit := g.limit, priority := g.priority, config := c } :
            PriceGrant))))
        usage state.featureType with
    | .error _ => { cost := none, rateAmount := none }
    | .ok r =>
      { cost := some (roundToTwoDecimals r.totalPrice)
        rateAmount := (r.items.getLast?).map (fun t => roundToTwoDecimals t.unitPrice) }

/-- A `reportUsage` request. -/
structure ReportUsageReq where
  customerId : String
  projectId : String
  featureSlug : String
  usage : ℚ
  timestamp : Int
  idempotenceKey : String
  requestId : String
deriving DecidableEq, Repr, Inhabited

/-- A `reportUsage` response. -/
structure ReportUsageResult where
  allowed : Bool
  message : String
  deniedReason : Option DeniedReason
  usage : ℚ
  limit : Option ℚ
  remaining : Option ℚ
  cost : Option ℚ
  notifiedOverLimit : Option Bool
deriving DecidableEq, Repr, Inhabited

/-- The externally visible side effects of one `reportUsage` call (states
written back via `storage.set`, usage records appended, `consume`
invocations, access-control-list updates scheduled). -/
structure ReportEffects where
  storageSets : List EntitlementState
  usageRecordsInserted : Nat
  consumeCalled : Bool
  aclUpdated : Bool
deriving DecidableEq, Repr, Inhabited

/-- No side effects. -/
def noEffects : ReportEffects :=
  { storageSets := [], usageRecordsInserted := 0, consumeCalled := false,
    aclUpdated := false }

/-- `EntitlementService.reportUsage` (noop.ts, lines 399-590), downstream of
`getStateWithRevalidation` and `hasIdempotenceKey`, whose results are the
`stateResult` and `keyExists` inputs. -/
def reportUsage (stateResult : Except String (Option EntitlementState))
    (keyExists : Bool) (req : ReportUsageReq) : ReportUsageResult × ReportEffects :=
  match stateResult with
  | .error msg =>
    ({ allowed := false, message := msg, deniedReason := some .entitlementError,
       usage := 0, limit := none, remaining := none, cost := none,
       notifiedOverLimit := none }, noEffects)
  | .ok none =>
    ({ allowed := false,
       message := "No entitlement found for the given customer, project and feature",
       deniedReason := some .entitlementNotFound, usage := 0, limit := none,
       remaining := none, cost := none, notifiedOverLimit := none }, noEffects)
  | .ok (some state) =>
    match validateEntitlementState state req.timestamp with
    | .error _ =>
      ({ allowed := false, message := "validation failed",
         deniedReason := some .entitlementError, usage := 0, limit := none,
         remaining := none, cost := none, notifiedOverLimit := none }, noEffects)
    | .ok validated =>
      let usageMeter : UsageMeter :=
        { config := getUsageMeterConfig validated, state := validated.meter }
      if keyExists then
        let meterResult := usageMeter.toPersist
        let cr := calculateCostAndRate validated meterResult.usage
        ({ allowed := true, message := "Usage already recorded (idempotent)",
           deniedReason := none, usage := meterResult.usage,
           limit := validated.limit, remaining := none, cost := cr.cost,
           notifiedOverLimit := some false }, noEffects)
      else
        let consumed := usageMeter.consume req.usage req.timestamp
        let consumeResult := consumed.1
        let meterResult := consumed.2.toPersist
        let newState := { validated with meter := meterResult }
        let shouldBlockCustomer : Bool :=
          decide (consumeResult.deniedReason = some .limitExceeded) &&
            ((validated.metadata.bind (·.blockCustomer)).getD false)
        let refundUnblock : Bool :=
          decide (req.usage < 0) && consumeResult.allowed &&
            (match consumeResult.remaining with
             | some r => decide (r > 0)
             | none => false)
        let cr := calculateCostAndRate validated meterResult.usage
        ({ allowed := consumeResult.allowed, message := consumeResult.message.getD "",
           deniedReason := consumeResult.deniedReason, usage := meterResult.usage,
           limit := validated.limit, remaining := consumeResult.remaining,
           cost := cr.cost, notifiedOverLimit := some consumeResult.overThreshold },
         { storageSets := [newState]
           usageRecordsInserted := if consumeResult.allowed then 1 else 0
           consumeCalled := true
           aclUpdated := shouldBlockCustomer || refundUnblock })

/-- A successful validation returns the input state with only
`effectiveAt`, `expiresAt` and `grants` replaced by the re-merge; in
particular the meter is untouched. -/
theorem validateEntitlementState_ok_eq (s : EntitlementState) (n : Int)
    (v : EntitlementState) (h : validateEntitlementState s n = .ok v) :
    v = { s with
      effectiveAt := (validatedMerged s n).effectiveAt
      expiresAt := (validatedMerged s n).expiresAt
      grants := (validatedMerged s n).grants } := by
  rw [validateEntitlementState] at h
  split at h
  · cases h
  · split at h
    · cases h
    · split at h
      · cases h
      · cases h
        rfl

/-- **C3.** For every `reportUsage` request whose idempotence key has
already been observed (`hasIdempotenceKey` returned true), the call returns
`allowed = true` carrying the current meter usage and the computed cost,
inserts no usage record, does not invoke `consume` on the meter, and does
not write the meter state back to storage — so two calls with the same key
leave the meter equal to a single application. -/
theorem C3_reportUsage_idempotent (stateResult : Except String (Option EntitlementState))
    (req : ReportUsageReq) (st v : EntitlementState)
    (hok : stateResult = .ok (some st))
    (hval : validateEntitlementState st req.timestamp = .ok v) :
    reportUsage stateResult true req =
      ({ allowed := true, message := "Usage already recorded (idempotent)",
         deniedReason := none, usage := st.meter.usage, limit := v.limit,
         remaining := none, cost := (calculateCostAndRate v st.meter.usage).cost,
         notifiedOverLimit := some false }, noEffects) := by
  have hmeter : v.meter = st.meter := by
    rw [validateEntitlementState_ok_eq st req.timestamp v hval]
  subst hok
  rw [reportUsage]
  simp only []
  rw [hval]
  simp only [if_pos rfl, if_true, UsageMeter.toPersist, hmeter]

/-- Grant kept by the C3 state's validation. -/
def c3Grant : GrantSnapshot :=
  { id := "g3", gtype := "subscription", name := "G3", effectiveAt := 0,
    expiresAt := none, limit := some 100, priority := 10,
    config := some { usageMode := some .unit, tiers := [] } }

/-- Meter with usage 7 already recorded under the key. -/
def c3Meter : MeterState :=
  { usage := 7, snapshotUsage := 7, lastReconciledId := "R", lastUpdated := 0,
    lastCycleStart := none }

/-- Concrete state for the C3 witness. -/
def c3State : EntitlementState :=
  { customerId := "c3c", projectId := "c3p", featureSlug := "f3",
    featureType := .usage, aggregationMethod := .sum, limit := some 100,
    mergingPolicy := .replace, grants := [c3Grant], version := "v3",
    effectiveAt := 0, expiresAt := none, nextRevalidateAt := 0,
    resetConfig := none, metadata := none, meter := c3Meter }

/-- The validated form of `c3State` at `now = 50` (replace policy keeps the
single active grant). -/
def c3Validated : EntitlementState :=
  { c3State with
    effectiveAt := c3Grant.effectiveAt
    expiresAt := c3Grant.expiresAt
    grants := [c3Grant] }

/-- The C3 request, idempotence key already seen. -/
def c3Req : ReportUsageReq :=
  { customerId := "c3c", projectId := "c3p", featureSlug := "f3", usage := 5,
    timestamp := 50, idempotenceKey := "k", requestId := "r" }

theorem C3_witness :
    ((.ok (some c3State) : Except String (Option EntitlementState)) = .ok (some c3State))
    ∧ (validateEntitlementState c3State c3Req.timestamp = .ok c3Validated)
    ∧ (reportUsage (.ok (some c3State)) true c3Req =
        ({ allowed := true, message := "Usage already recorded (idempotent)",
           deniedReason := none, usage := c3State.meter.usage, limit := c3Validated.limit,
           remaining := none,
           cost := (calculateCostAndRate c3Validated c3State.meter.usage).cost,
           notifiedOverLimit := some false }, noEffects)) :=
  ⟨rfl, by rfl,
    C3_reportUsage_idempotent (.ok (some c3State)) c3Req c3State c3Validated rfl (by rfl)⟩

/-! ## EntitlementService.resetEntitlements (noop.ts, lines 1341-1384) -/

/-- A minimal entitlement row as listed by `getActiveEntitlements`. -/
structure MinimalEntitlement where
  id : String
  featureSlug : String
  effectiveAt : Int
  expiresAt : Option Int
deriving DecidableEq, Repr, Inhabited

/-- Modelled from the spec: `storage.makeKey` (the storage-provider module
is not under `src/`); §6 persisted layout
`entitlement:<projectId>:<customerId>:<featureSlug>`. -/
def makeKey (customerId projectId featureSlug : String) : String :=
  "entitlement:" ++ projectId ++ ":" ++ customerId ++ ":" ++ featureSlug

/-- The per-feature negative-entitlement cache key
`negative:<projectId>:<customerId>:<featureSlug>` written by
`getActiveEntitlement` on a miss (noop.ts, lines 1599 and 1626). -/
def negativeEntitlementFeatureKey (projectId customerId featureSlug : String) : String :=
  "negative:" ++ projectId ++ ":" ++ customerId ++ ":" ++ featureSlug

/-- The customer-level negative-entitlement cache key
`negative:<projectId>:<customerId>:all` (noop.ts, lines 702 and 1373). -/
def negativeAllKey (projectId customerId : String) : String :=
  "negative:" ++ projectId ++ ":" ++ customerId ++ ":all"

/-- The effects performed by one `resetEntitlements` call: cache keys
removed per namespace, the ACL invalidation, the storage reset and the
database delete. -/
structure ResetEffects where
  customerEntitlementRemoved : List String
  customerEntitlementsRemoved : List String
  negativeEntitlementsRemoved : List String
  accessControlListInvalidated : Bool
  getCurrentUsageRemoved : List String
  storageReset : Bool
  dbEntitlementsDeleted : Bool
deriving DecidableEq, Repr, Inhabited

/-- `EntitlementService.resetEntitlements` (noop.ts, lines 1341-1384) as the
effects it performs. `entitlementsData` is the error-ignoring `val` of the
preceding `getActiveEntitlements` call (`none` when that call failed). -/
def resetEntitlements (customerId projectId : String)
    (entitlementsData : Option (List MinimalEntitlement)) : ResetEffects :=
  let cacheKey := projectId ++ ":" ++ customerId
  { customerEntitlementRemoved :=
      match entitlementsData with
      | some l =>
        if l.length > 0 then l.map (fun e => makeKey customerId projectId e.featureSlug)
        else []
      | none => []
    customerEntitlementsRemoved := [cacheKey]
    negativeEntitlementsRemoved := [negativeAllKey projectId customerId]
    accessControlListInvalidated := true
    getCurrentUsageRemoved := [cacheKey]
    storageReset := true
    dbEntitlementsDeleted := true }

/-- **C9** (amended). `resetEntitlements(customerId, projectId)` removes the
customer-level entries of the five cache namespaces — a `customerEntitlement`
key for each feature listed by `getActiveEntitlements`, the
`customerEntitlements` entry, the customer-level (`:all`)
`negativeEntitlements` entry, the access-control-list entry and the
`getCurrentUsage` entry — deletes the customer's entitlement rows from the
database and clears the actor storage. Per-feature `negativeEntitlements`
entries are not removed (see the counterexample). -/
theorem C9_resetEntitlements_effects (customerId projectId : String)
    (l : List MinimalEntitlement) :
    (∀ e ∈ l, makeKey customerId projectId e.featureSlug ∈
      (resetEntitlements customerId projectId (some l)).customerEntitlementRemoved)
    ∧ (resetEntitlements customerId projectId (some l)).customerEntitlementsRemoved
        = [projectId ++ ":" ++ customerId]
    ∧ (resetEntitlements customerId projectId (some l)).negativeEntitlementsRemoved
        = [negativeAllKey projectId customerId]
    ∧ (resetEntitlements customerId projectId (some l)).accessControlListInvalidated = true
    ∧ (resetEntitlements customerId projectId (some l)).getCurrentUsageRemoved
        = [projectId ++ ":" ++ customerId]
    ∧ (resetEntitlements customerId projectId (some l)).storageReset = true
    ∧ (resetEntitlements customerId projectId (some l)).dbEntitlementsDeleted = true := by
  refine ⟨?_, rfl, rfl, rfl, rfl, rfl, rfl⟩
  intro e he
  show makeKey customerId projectId e.featureSlug ∈
    (if l.length > 0 then l.map (fun e => makeKey customerId projectId e.featureSlug)
     else [])
  have hlen : l.length > 0 := List.length_pos.mpr (List.ne_nil_of_mem he)
  rw [if_pos hlen]
  exact List.mem_map.mpr ⟨e, he, rfl⟩

/-- **C9** counterexample: the per-feature negative-entitlement cache entry
(`negative:p9:c9:f9`, the very key `getActiveEntitlement` caches a miss
under) is not among the keys `resetEntitlements` removes from the
`negativeEntitlements` namespace — it only removes `negative:p9:c9:all` —
so not every cached entry of that namespace is removed. -/
theorem C9_counterexample :
    negativeEntitlementFeatureKey "p9" "c9" "f9" ∉
      (resetEntitlements "c9" "p9"
        (some [{ id := "id9", featureSlug := "f9", effectiveAt := 0,
                 expiresAt := none }])).negativeEntitlementsRemoved := by
  decide

theorem C9_witness :
    (∀ e ∈ [({ id := "id9b", featureSlug := "f9b", effectiveAt := 0,
               expiresAt := none } : MinimalEntitlement)],
      makeKey "c9b" "p9b" e.featureSlug ∈
        (resetEntitlements "c9b" "p9b"
          (some [{ id := "id9b", featureSlug := "f9b", effectiveAt := 0,
                   expiresAt := none }])).customerEntitlementRemoved)
    ∧ (resetEntitlements "c9b" "p9b"
        (some [{ id := "id9b", featureSlug := "f9b", effectiveAt := 0,
                 expiresAt := none }])).customerEntitlementsRemoved
        = ["p9b" ++ ":" ++ "c9b"]
    ∧ (resetEntitlements "c9b" "p9b"
        (some [{ id := "id9b", featureSlug := "f9b", effectiveAt := 0,
                 expiresAt := none }])).negativeEntitlementsRemoved
        = [negativeAllKey "p9b" "c9b"]
    ∧ (resetEntitlements "c9b" "p9b"
        (some [{ id := "id9b", featureSlug := "f9b", effectiveAt := 0,
                 expiresAt := none }])).accessControlListInvalidated = true
    ∧ (resetEntitlements "c9b" "p9b"
        (some [{ id := "id9b", featureSlug := "f9b", effectiveAt := 0,
                 expiresAt := none }])).getCurrentUsageRemoved
        = ["p9b" ++ ":" ++ "c9b"]
    ∧ (resetEntitlements "c9b" "p9b"
        (some [{ id := "id9b", featureSlug := "f9b", effectiveAt := 0,
                 expiresAt := none }])).storageReset = true
    ∧ (resetEntitlements "c9b" "p9b"
        (some [{ id := "id9b", featureSlug := "f9b", effectiveAt := 0,
                 expiresAt := none }])).dbEntitlementsDeleted = true :=
  C9_resetEntitlements_effects "c9b" "p9b"
    [{ id := "id9b", featureSlug := "f9b", effectiveAt := 0, expiresAt := none }]

/-- High-priority grant for the C6 witness: no overage strategy set. -/
def c6GrantHigh : GrantExt :=
  { id := "g-high", gtype := "promotion", name := "H", priority := 70, limit := none,
    anchor := 0, effectiveAt := 0, expiresAt := none,
    featurePlanVersion :=
      { featureSlug := "api_calls", featureType := .usage, aggregationMethod := .sum,
        config := { usageMode := some .unit, tiers := [] },
        metadata := none, resetConfig := none, billingConfig := none } }

/-- Low-priority grant for the C6 witness: strategy `last-call`. -/
def c6GrantLow : GrantExt :=
  { id := "g-low", gtype := "subscription", name := "L", priority := 10, limit := none,
    anchor := 0, effectiveAt := 5, expiresAt := none,
    featurePlanVersion :=
      { featureSlug := "api_calls", featureType := .usage, aggregationMethod := .sum,
        config := { usageMode := some .unit, tiers := [] },
        metadata := some
          { overageStrategy := some .lastCall, notifyUsageThreshold := none,
            blockCustomer := none, hidden := none, realtime := none },
        resetConfig := none, billingConfig := none } }

theorem C6_witness :
    ([c6GrantHigh, c6GrantLow] ≠ ([] : List GrantExt))
    ∧ ([c6GrantHigh, c6GrantLow].all (fun g => decide (g.featurePlanVersion.featureSlug =
        [c6GrantHigh, c6GrantLow].headI.featurePlanVersion.featureSlug)) = true)
    ∧ (∃ ce, computeEntitlementState "cust" "proj" [c6GrantHigh, c6GrantLow] = .ok ce
        ∧ ce.mergingPolicy = (mergedOf [c6GrantHigh, c6GrantLow]).mergingPolicy
        ∧ ce.metadata.overageStrategy = some (
            match (mergedOf [c6GrantHigh, c6GrantLow]).mergingPolicy with
            | .sum =>
              if [c6GrantHigh, c6GrantLow].any
                  (fun g => decide (grantStrategy g = some .always)) then .always
              else if [c6GrantHigh, c6GrantLow].any
                  (fun g => decide (grantStrategy g = some .lastCall)) then .lastCall
              else (grantStrategy (winningGrantOf [c6GrantHigh, c6GrantLow])).getD .none
            | .max =>
              if [c6GrantHigh, c6GrantLow].any
                  (fun g => decide (grantStrategy g = some .always)) then .always
              else if [c6GrantHigh, c6GrantLow].any
                  (fun g => decide (grantStrategy g = some .lastCall)) then .lastCall
              else (grantStrategy (winningGrantOf [c6GrantHigh, c6GrantLow])).getD .none
            | .min =>
              if [c6GrantHigh, c6GrantLow].any
                  (fun g => decide (grantStrategy g = some .none)) then .none
              else if [c6GrantHigh, c6GrantLow].any
                  (fun g => decide (grantStrategy g = some .lastCall)) then .lastCall
              else .always
            | .replace =>
              (grantStrategy (winningGrantOf [c6GrantHigh, c6GrantLow])).getD .none)) :=
  ⟨by decide, by decide,
    C6_overage_strategy "cust" "proj" [c6GrantHigh, c6GrantLow] (by decide) (by decide)⟩

theorem C5_witness :
    ([c5GrantA, c5GrantB] ≠ ([] : List GrantSnapshot))
    ∧ resolvePolicy (some .tier) none none = .max
    ∧ (∃ g ∈ [c5GrantA, c5GrantB], g.limit ≠ none)
    ∧ (∃ w m, (mergeGrants [c5GrantA, c5GrantB] (some .tier) none none).grants = [w]
        ∧ w ∈ [c5GrantA, c5GrantB] ∧ w.limit = some m
        ∧ (mergeGrants [c5GrantA, c5GrantB] (some .tier) none none).limit = some m
        ∧ (mergeGrants [c5GrantA, c5GrantB] (some .tier) none none).effectiveAt = w.effectiveAt
        ∧ (mergeGrants [c5GrantA, c5GrantB] (some .tier) none none).expiresAt = w.expiresAt
        ∧ (∀ g ∈ [c5GrantA, c5GrantB], ∀ lg, g.limit = some lg → lg ≤ m)
        ∧ (∀ g ∈ [c5GrantA, c5GrantB], g.limit = some m → g.priority ≤ w.priority)) :=
  ⟨by decide, by decide, ⟨c5GrantB, by simp [c5GrantB]⟩,
    C5_mergeGrants_max [c5GrantA, c5GrantB] (some .tier) none none
      (by decide) (by decide) ⟨c5GrantB, by simp [c5GrantB]⟩⟩

end Unprice
